import Mathlib

/-!
# Snowman game server: skill progression store and tick loop

A shallow embedding of `src/src/botAI.js` (class `BotAI`) and of the simulation
loop of `src/src/index.js` (`tick`, `updateBotBehavior`, `isCollidingWithMap`).

Numbers of the JavaScript program are modelled as exact rationals (`ℚ`): the
rounding of IEEE doubles is outside this development.  Decimal literals of the
source are taken at their decimal value (`0.35` is `7/20`).  Counters that the
program only ever increments from `0` are natural numbers.
-/

namespace Snowman

/-! ## Skill progression store (`src/src/botAI.js`) -/

/-- The `skills` record of a bot profile. -/
structure Skills where
  movement : ℚ
  awareness : ℚ
  combat : ℚ
  survival : ℚ
  deriving DecidableEq

/-- The `state` record of a bot profile. -/
structure BotState where
  lastMoveTime : ℚ
  lastAttackTime : ℚ
  wanderAngle : ℚ
  movePattern : String
  deriving DecidableEq

/-- The `stats` record of a bot profile. -/
structure Stats where
  kills : ℕ
  deaths : ℕ
  hits : ℕ
  shots : ℕ
  playTime : ℚ
  deriving DecidableEq

/-- One entry of `learningData`. -/
structure Profile where
  experience : ℚ
  level : ℤ
  skills : Skills
  state : BotState
  stats : Stats
  deriving DecidableEq

/-- The object `this.learningData`: a missing key reads as `undefined`. -/
abbrev LearningData := String → Option Profile

/-- Assignment `learningData[botId] = p`. -/
def LearningData.set (store : LearningData) (botId : String) (p : Profile) : LearningData :=
  fun k => if k = botId then some p else store k

/-- The object literal of `initializeBot`; `wander` is the value drawn for
`Math.random() * Math.PI * 2`. -/
def freshProfile (wander : ℚ) : Profile :=
  { experience := 0
    level := 1
    skills := { movement := 1 / 10, awareness := 0, combat := 0, survival := 0 }
    state := { lastMoveTime := 0, lastAttackTime := 0, wanderAngle := wander,
               movePattern := "random" }
    stats := { kills := 0, deaths := 0, hits := 0, shots := 0, playTime := 0 } }

/-- Method `initializeBot(botId)`: creates the profile only when the key is absent. -/
def initializeBot (store : LearningData) (botId : String) (wander : ℚ) : LearningData :=
  match store botId with
  | some _ => store
  | none => store.set botId (freshProfile wander)

/-- The body of `updateExperience` under `if (bot)`, on the profile object. -/
def Profile.updateExperience (bot : Profile) (amount : ℚ) : Profile :=
  let experience := bot.experience + amount
  let level : ℤ := ⌊experience / 300⌋ + 1
  { bot with
    experience := experience
    level := level
    skills :=
      { movement := min 1 ((level : ℚ) * (1 / 5))
        awareness := min 1 (((level : ℚ) - 1) * (1 / 4))
        combat := min 1 (((level : ℚ) - 2) * (3 / 10))
        survival := min 1 (((level : ℚ) - 3) * (7 / 20)) } }

/-- Method `updateExperience(botId, amount)`. -/
def updateExperience (store : LearningData) (botId : String) (amount : ℚ) : LearningData :=
  match store botId with
  | none => store
  | some bot => store.set botId (bot.updateExperience amount)

/-- The test `hits / shots > 0.5` of `recordHit`.  A JavaScript division by
zero does not fail: a positive numerator gives `Infinity` (greater than `0.5`),
and `0 / 0` gives `NaN` (every comparison false). -/
def accuracyAboveHalf (hits shots : ℕ) : Bool :=
  if shots = 0 then decide (0 < hits) else decide ((1 : ℚ) / 2 < (hits : ℚ) / (shots : ℚ))

/-- Method `recordHit(botId)`. -/
def recordHit (store : LearningData) (botId : String) : LearningData :=
  match store botId with
  | none => store
  | some bot =>
    let bot1 := { bot with stats := { bot.stats with hits := bot.stats.hits + 1 } }
    let store1 := store.set botId bot1
    let accuracy := accuracyAboveHalf bot1.stats.hits bot1.stats.shots
    let store2 := updateExperience store1 botId 50
    if accuracy then updateExperience store2 botId 20 else store2

/-- Method `recordKill(botId, position)`; `position` is not read by the source. -/
def recordKill (store : LearningData) (botId : String) : LearningData :=
  match store botId with
  | none => store
  | some bot =>
    let bot1 := { bot with stats := { bot.stats with kills := bot.stats.kills + 1 } }
    let store1 := store.set botId bot1
    let store2 := updateExperience store1 botId 100
    match store2 botId with
    | none => store2
    | some b => if b.stats.kills % 5 = 0 then updateExperience store2 botId 50 else store2

/-- Method `recordDeath(botId, position)`; `position` is not read by the source. -/
def recordDeath (store : LearningData) (botId : String) : LearningData :=
  match store botId with
  | none => store
  | some bot =>
    let bot1 := { bot with stats := { bot.stats with deaths := bot.stats.deaths + 1 } }
    let store1 := store.set botId bot1
    let store2 := updateExperience store1 botId 10
    match store2 botId with
    | none => store2
    | some b =>
      if b.stats.deaths % 5 = 0 then
        store2.set botId
          { b with skills := { b.skills with survival := min 1 (b.skills.survival + 1 / 10) } }
      else store2

/-- The survival value that `updateExperience` derives from a level. -/
def levelSurvival (level : ℤ) : ℚ := min 1 (((level : ℚ) - 3) * (7 / 20))


/-! ## Simulation loop (`src/src/index.js`) -/

/-- Distance a player moves per tick along one axis. -/
def SPEED : ℚ := 10

/-- Distance a snowball moves per tick. -/
def SNOWBALL_SPEED : ℚ := 11

/-- Side of the square of a player. -/
def PLAYER_SIZE : ℚ := 32

/-- Side of the square of a tile. -/
def TILE_SIZE : ℚ := 32

/-- Radius within which a bot sees a target. -/
def BOT_VISION_RADIUS : ℚ := 500

/-- Radius within which a bot attacks its target. -/
def BOT_ATTACK_RADIUS : ℚ := 350

/-- Radius within which a bot evades its target. -/
def BOT_EVASION_RADIUS : ℚ := 200

/-- Side of the square world. -/
def MAP_SIZE : ℚ := 3200

/-- A rectangle `{ x, y, w, h }`. -/
structure Rect where
  x : ℚ
  y : ℚ
  w : ℚ
  h : ℚ

/-- Function `isColliding(rect1, rect2)`: strict overlap of two axis-aligned rectangles. -/
def isColliding (rect1 rect2 : Rect) : Bool :=
  decide (rect1.x < rect2.x + rect2.w) &&
  decide (rect1.x + rect1.w > rect2.x) &&
  decide (rect1.y < rect2.y + rect2.h) &&
  decide (rect1.h + rect1.y > rect2.y)

/-- The grid `decal2D`: each cell holds the truthiness of its tile (`true` for a
tile object, `false` for `null` / `undefined`). -/
abbrev Decal := List (List Bool)

/-- The cell `decal2D[row][col]`, read as a truth value; an index past the end of a row
reads `undefined`. -/
def Decal.tile (decal2D : Decal) (row col : ℕ) : Bool :=
  match decal2D[row]? with
  | none => false
  | some r => r.getD col false

/-- The value `decal2D[0].length`, the column bound of the inner loop (only evaluated
when there is a row). -/
def Decal.cols (decal2D : Decal) : ℕ :=
  match decal2D with
  | [] => 0
  | r :: _ => r.length

/-- An element of `players`. -/
structure Player where
  id : String
  x : ℚ
  y : ℚ
  isBot : Bool
  deriving DecidableEq

/-- Function `isCollidingWithMap(player)`: the nested loop returns `true` at the first
solid tile whose square overlaps the player's square. -/
def isCollidingWithMap (decal2D : Decal) (player : Player) : Bool :=
  (List.range decal2D.length).any fun row =>
    (List.range decal2D.cols).any fun col =>
      decal2D.tile row col &&
        isColliding
          { x := player.x, y := player.y, w := PLAYER_SIZE, h := PLAYER_SIZE }
          { x := (col : ℚ) * TILE_SIZE, y := (row : ℚ) * TILE_SIZE, w := TILE_SIZE, h := TILE_SIZE }

/-- An element of `snowballs`. -/
structure Snowball where
  angle : ℚ
  x : ℚ
  y : ℚ
  timeLeft : ℚ
  playerId : String
  deriving DecidableEq

/-- A value of `inputsMap`: the truthiness of the four direction flags. -/
structure Inputs where
  up : Bool
  down : Bool
  left : Bool
  right : Bool
  deriving DecidableEq

/-- An entry of `botLearningData` (the transient behaviour state of
`index.js`, not the profile of `botAI.js`). -/
structure BotData where
  moveDirectionX : ℚ
  moveDirectionY : ℚ
  lastAction : Option String
  aggression : ℚ
  evasion : ℚ
  attackCooldown : ℚ
  movementCooldown : ℚ
  deriving DecidableEq

/-- The default object used when `botLearningData[bot.id]` is missing. -/
def defaultBotData : BotData :=
  { moveDirectionX := 0, moveDirectionY := 0, lastAction := none, aggression := 0,
    evasion := 0, attackCooldown := 0, movementCooldown := 0 }

/-- The functions of `Math` that the loop calls, left uninterpreted: every
theorem about the loop holds for all of them. -/
structure JSMath where
  cos : ℚ → ℚ
  sin : ℚ → ℚ
  sqrt : ℚ → ℚ
  atan2 : ℚ → ℚ → ℚ

/-- What a tick reads but never writes: the decal grid, the `Math` functions
and the sequence of values returned by successive `Math.random()` calls. -/
structure Env where
  decal2D : Decal
  math : JSMath
  random : ℕ → ℚ

/-- The mutable globals of `index.js`.  `lastHitMap` holds, per struck id, the
shooter found by `players.find` as an index into `players` (`none` for
`undefined`).  `draws` counts the `Math.random()` calls made so far; `hitLog`
is a ghost list of the strikes of the current tick, as pairs (snowball index,
struck player index), which `tick` empties on entry. -/
structure World where
  players : List Player
  snowballs : List Snowball
  inputsMap : String → Option Inputs
  lastHitMap : String → Option (Option ℕ)
  botLearningData : String → Option BotData
  draws : ℕ
  hitLog : List (ℕ × ℕ)

/-- Function `getRandomPosition()` with `r` the value of `Math.random()`. -/
def getRandomPosition (r : ℚ) : ℚ := r * (MAP_SIZE - PLAYER_SIZE)

/-- Function `calculateDistance(a, b)`. -/
def calculateDistance (M : JSMath) (x1 y1 x2 y2 : ℚ) : ℚ :=
  M.sqrt ((x1 - x2) ^ 2 + (y1 - y2) ^ 2)

/-- Function `findNearestTarget(bot)`: the first human in registry order within vision. -/
def findNearestTarget (M : JSMath) (players : List Player) (bot : Player) : Option Player :=
  players.find? fun p =>
    p.id != bot.id && p.isBot == false &&
      decide (calculateDistance M bot.x bot.y p.x p.y < BOT_VISION_RADIUS)

/-- Function `findNearestBot(bot)`: the first other bot in registry order within vision. -/
def findNearestBot (M : JSMath) (players : List Player) (bot : Player) : Option Player :=
  players.find? fun p =>
    p.id != bot.id && p.isBot == true &&
      decide (calculateDistance M bot.x bot.y p.x p.y < BOT_VISION_RADIUS)

/-- What lines 113-181 of `updateBotBehavior` leave behind: the moved position,
the behaviour state, a snowball pushed (if any) and the draw counter. -/
structure BotIntent where
  x : ℚ
  y : ℚ
  botData : BotData
  fired : Option Snowball
  draws : ℕ

/-- The no-target branch of `updateBotBehavior` (wander). -/
def botWander (env : Env) (delta : ℚ) (draws : ℕ) (bot : Player) (botData : BotData) :
    BotIntent :=
  let redraw := decide (botData.movementCooldown ≤ 0)
  let botData1 : BotData :=
    if redraw then
      { botData with
        moveDirectionX := env.random draws * 2 - 1
        moveDirectionY := env.random (draws + 1) * 2 - 1
        movementCooldown := env.random (draws + 2) * 1000 + 500 }
    else botData
  { x := bot.x + botData1.moveDirectionX * SPEED
    y := bot.y + botData1.moveDirectionY * SPEED
    botData := { botData1 with lastAction := some "moving",
                               movementCooldown := botData1.movementCooldown - delta }
    fired := none
    draws := if redraw then draws + 3 else draws }

/-- The has-target branch of `updateBotBehavior` (attack, evade or pursue). -/
def botEngage (env : Env) (draws : ℕ) (bot target : Player) (botData : BotData) : BotIntent :=
  let M := env.math
  let targetDistance := calculateDistance M bot.x bot.y target.x target.y
  if targetDistance < BOT_ATTACK_RADIUS ∧ botData.attackCooldown ≤ 0 then
    let aggression := botData.aggression + 1 / 10
    let bodyCenterX := target.x + PLAYER_SIZE / 2
    let bodyCenterY := target.y + PLAYER_SIZE / 2
    let attackAngle := M.atan2 (bodyCenterY - bot.y) (bodyCenterX - bot.x)
    if aggression > 7 / 10 then
      { x := bot.x, y := bot.y
        botData := { botData with aggression := aggression, lastAction := some "attacking",
                                  attackCooldown := 100 }
        fired := some { angle := attackAngle, x := bot.x, y := bot.y, timeLeft := 1000,
                        playerId := bot.id }
        draws := draws }
    else
      { x := bot.x, y := bot.y
        botData := { botData with aggression := aggression, lastAction := some "approaching" }
        fired := none, draws := draws }
  else if targetDistance < BOT_EVASION_RADIUS then
    let evasionAngle := M.atan2 (bot.y - target.y) (bot.x - target.x)
    { x := bot.x + M.cos evasionAngle * SPEED * (3 / 2)
      y := bot.y + M.sin evasionAngle * SPEED * (3 / 2)
      botData := { botData with evasion := botData.evasion + 1 / 20,
                                lastAction := some "evading" }
      fired := none, draws := draws }
  else
    let moveAngle := M.atan2 (target.y - bot.y) (target.x - bot.x)
    { x := bot.x + M.cos moveAngle * SPEED
      y := bot.y + M.sin moveAngle * SPEED
      botData := { botData with lastAction := some "moving" }
      fired := none, draws := draws }

/-- Lines 113-181 of `updateBotBehavior`: target choice and movement intent. -/
def botDecide (env : Env) (delta : ℚ) (w : World) (bot : Player) : BotIntent :=
  let nearestPlayer := findNearestTarget env.math w.players bot
  let nearestBot := findNearestBot env.math w.players bot
  let target := nearestPlayer <|> nearestBot
  let botData := (w.botLearningData bot.id).getD defaultBotData
  match target with
  | none => botWander env delta w.draws bot botData
  | some t => botEngage env w.draws bot t botData

/-- Function `updateBotBehavior(bot, delta)` for the bot at index `i` of `players`:
the intent, then the clamp, the random nudge when the clamped position collides
with the map, the attack cooldown and the write-back of the behaviour state. -/
def updateBotBehavior (env : Env) (delta : ℚ) (w : World) (i : ℕ) (bot : Player) : World :=
  let m := botDecide env delta w bot
  let x1 := max 0 (min m.x (MAP_SIZE - PLAYER_SIZE))
  let y1 := max 0 (min m.y (MAP_SIZE - PLAYER_SIZE))
  let stuck := isCollidingWithMap env.decal2D { bot with x := x1, y := y1 }
  let x2 := if stuck then x1 - (env.random m.draws * 2 - 1) else x1
  let y2 := if stuck then y1 - (env.random (m.draws + 1) * 2 - 1) else y1
  let botData :=
    if m.botData.attackCooldown > 0 then
      { m.botData with attackCooldown := m.botData.attackCooldown - delta }
    else m.botData
  { w with
    players := w.players.set i { bot with x := x2, y := y2 }
    snowballs := match m.fired with
      | none => w.snowballs
      | some s => w.snowballs ++ [s]
    botLearningData := fun k => if k = bot.id then some botData else w.botLearningData k
    draws := if stuck then m.draws + 2 else m.draws }

/-- The four movement lines of the human branch of `tick`, in source order. -/
def applyInputs (inputs : Inputs) (player : Player) : Player :=
  let p1 := if inputs.up then { player with y := max 0 (player.y - SPEED) } else player
  let p2 := if inputs.down then { p1 with y := min (MAP_SIZE - PLAYER_SIZE) (p1.y + SPEED) } else p1
  let p3 := if inputs.left then { p2 with x := max 0 (p2.x - SPEED) } else p2
  if inputs.right then { p3 with x := min (MAP_SIZE - PLAYER_SIZE) (p3.x + SPEED) } else p3

/-- The human branch of `tick` once `inputs` is an object: move, then restore
both coordinates when the moved square collides with the map. -/
def humanStep (decal2D : Decal) (inputs : Inputs) (player : Player) : Player :=
  let previousX := player.x
  let previousY := player.y
  let moved := applyInputs inputs player
  if isCollidingWithMap decal2D moved then { moved with x := previousX, y := previousY }
  else moved

/-- One iteration of the first loop of `tick`, for the player at index `i`.
Reading `inputs.up` when `inputsMap[player.id]` is `undefined` (or `null`)
throws a `TypeError`, which ends the tick. -/
def stepPlayer (env : Env) (delta : ℚ) (w : World) (i : ℕ) : Except String World :=
  match w.players[i]? with
  | none => pure w
  | some player =>
    if player.isBot then pure (updateBotBehavior env delta w i player)
    else
      match w.inputsMap player.id with
      | none => throw "TypeError: cannot read properties of undefined"
      | some inputs =>
        pure { w with players := w.players.set i (humanStep env.decal2D inputs player) }

/-- The first loop of `tick`: `for (const player of players)` over the first
`n` indices. -/
def tickPlayers (env : Env) (delta : ℚ) (w : World) (n : ℕ) : Except String World :=
  (List.range n).foldlM (stepPlayer env delta) w

/-- The test of the inner loop of the snowball pass: `player` is not the
owner of the snowball and its body centre is within `PLAYER_SIZE / 2` of it. -/
def strikes (M : JSMath) (s : Snowball) (player : Player) : Bool :=
  player.id != s.playerId &&
    decide (calculateDistance M (player.x + PLAYER_SIZE / 2) (player.y + PLAYER_SIZE / 2) s.x s.y
      ≤ PLAYER_SIZE / 2)

/-- The inner loop of the snowball pass: the first player in registry order
that the snowball strikes, with its index (the loop breaks there). -/
def firstStruck (M : JSMath) (s : Snowball) : List Player → Option (ℕ × Player)
  | [] => none
  | player :: rest =>
    if strikes M s player then some (0, player)
    else (firstStruck M s rest).map fun r => (r.1 + 1, r.2)

/-- The first three lines of the snowball loop body: advance and age. -/
def advance (M : JSMath) (delta : ℚ) (s : Snowball) : Snowball :=
  { s with
    x := s.x + M.cos s.angle * SNOWBALL_SPEED
    y := s.y + M.sin s.angle * SNOWBALL_SPEED
    timeLeft := s.timeLeft - delta }

/-- One iteration of the snowball loop of `tick`, for the snowball at index `j`. -/
def stepSnowball (env : Env) (delta : ℚ) (w : World) (j : ℕ) : World :=
  match w.snowballs[j]? with
  | none => w
  | some s =>
    let s1 := advance env.math delta s
    match firstStruck env.math s1 w.players with
    | none => { w with snowballs := w.snowballs.set j s1 }
    | some (k, player) =>
      let shooter := w.players.findIdx? fun p => p.id == s1.playerId
      { w with
        lastHitMap := fun key => if key = player.id then some shooter else w.lastHitMap key
        players := w.players.set k
          { player with x := getRandomPosition (env.random w.draws)
                        y := getRandomPosition (env.random (w.draws + 1)) }
        snowballs := w.snowballs.set j { s1 with timeLeft := -1 }
        draws := w.draws + 2
        hitLog := w.hitLog ++ [(j, k)] }

/-- The snowball loop of `tick` over the first `n` indices. -/
def sweepSnowballs (env : Env) (delta : ℚ) (w : World) (n : ℕ) : World :=
  (List.range n).foldl (stepSnowball env delta) w

/-- Function `tick(delta)`: the player loop, the snowball loop, the filter on
`timeLeft > 0`.  The two `io.emit` calls only read the state. -/
def tick (env : Env) (delta : ℚ) (w : World) : Except String World := do
  let w1 ← tickPlayers env delta { w with hitLog := [] } w.players.length
  let w2 := sweepSnowballs env delta w1 w1.snowballs.length
  pure { w2 with snowballs := w2.snowballs.filter fun s => decide (s.timeLeft > 0) }


/-- What one iteration of the player loop leaves untouched. -/
structure PlayerFrame (w w' : World) : Prop where
  len : w'.players.length = w.players.length
  inputs : w'.inputsMap = w.inputsMap
  log : w'.hitLog = w.hitLog
  ident : ∀ k : ℕ, (w'.players[k]?).map (fun p : Player => (p.id, p.isBot)) =
    (w.players[k]?).map (fun p : Player => (p.id, p.isBot))
  balls : ∃ extra, w'.snowballs = w.snowballs ++ extra

/-! ## The move of a human player in the words of the specification -/

/-- Clamp of one coordinate to the world bounds `[0, MAP_SIZE - PLAYER_SIZE]`. -/
def clampWorld (v : ℚ) : ℚ := max 0 (min v (MAP_SIZE - PLAYER_SIZE))

/-- The position the specification describes: each active direction moves the
entity by `SPEED` along its axis, clamped to the world bounds. -/
def specMoved (inputs : Inputs) (player : Player) : Player :=
  let y1 := if inputs.up then clampWorld (player.y - SPEED) else player.y
  let y2 := if inputs.down then clampWorld (y1 + SPEED) else y1
  let x1 := if inputs.left then clampWorld (player.x - SPEED) else player.x
  let x2 := if inputs.right then clampWorld (x1 + SPEED) else x1
  { player with x := x2, y := y2 }

/-- Both coordinates lie in `[0, MAP_SIZE - PLAYER_SIZE]`. -/
def inBounds (p : Player) : Prop :=
  0 ≤ p.x ∧ p.x ≤ MAP_SIZE - PLAYER_SIZE ∧ 0 ≤ p.y ∧ p.y ≤ MAP_SIZE - PLAYER_SIZE

/-! ## Example data -/

/-- A profile at level 5 with four deaths, ten shots and five hits. -/
def veteran : Profile :=
  { experience := 1200
    level := 5
    skills := { movement := 1, awareness := 1, combat := 9 / 10, survival := 7 / 10 }
    state := { lastMoveTime := 0, lastAttackTime := 0, wanderAngle := 0, movePattern := "random" }
    stats := { kills := 4, deaths := 4, hits := 5, shots := 10, playTime := 0 } }

/-- A store that holds `veteran` under the key `bot_0`. -/
def veteranStore : LearningData := fun k => if k = "bot_0" then some veteran else none

/-- The input state written by the connect handler. -/
def allFalse : Inputs := { up := false, down := false, left := false, right := false }

/-- A table for `Math` that agrees with JavaScript at the only arguments the
examples below reach: `cos 0 = 1`, `sin 0 = 0`, `sqrt 0 = 0`. -/
def flatMath : JSMath :=
  { cos := fun _ => 1, sin := fun _ => 0, sqrt := fun q => q, atan2 := fun _ _ => 0 }

/-- A map whose only solid tile is the one at row 0, column 0; every
`Math.random()` call returns `0`. -/
def arenaEnv : Env := { decal2D := [[true]], math := flatMath, random := fun _ => 0 }

/-- Two humans; `a` holds the right key and has thrown a snowball that is one
step away from the centre of `b`. -/
def arena : World :=
  { players := [{ id := "b", x := 200, y := 200, isBot := false },
                { id := "a", x := 400, y := 400, isBot := false }]
    snowballs := [{ angle := 0, x := 205, y := 216, timeLeft := 500, playerId := "a" }]
    inputsMap := fun k => if k = "a" then some { allFalse with right := true } else some allFalse
    lastHitMap := fun _ => none
    botLearningData := fun _ => none
    draws := 0
    hitLog := [] }

/-- The world `arena` after the player loop of one tick. -/
def arenaMoved : World :=
  { players := [{ id := "b", x := 200, y := 200, isBot := false },
                { id := "a", x := 410, y := 400, isBot := false }]
    snowballs := [{ angle := 0, x := 205, y := 216, timeLeft := 500, playerId := "a" }]
    inputsMap := fun k => if k = "a" then some { allFalse with right := true } else some allFalse
    lastHitMap := fun _ => none
    botLearningData := fun _ => none
    draws := 0
    hitLog := [] }

/-- The world `arena` after one tick of 31 ms. -/
def arenaAfter : World :=
  { players := [{ id := "b", x := 0, y := 0, isBot := false },
                { id := "a", x := 410, y := 400, isBot := false }]
    snowballs := []
    inputsMap := fun k => if k = "a" then some { allFalse with right := true } else some allFalse
    lastHitMap := fun k => if k = "b" then some (some 1) else none
    botLearningData := fun _ => none
    draws := 2
    hitLog := [(0, 0)] }

/-- One human who has thrown two snowballs, one about to expire. -/
def solo : World :=
  { players := [{ id := "a", x := 400, y := 400, isBot := false }]
    snowballs := [{ angle := 0, x := 1000, y := 1000, timeLeft := 20, playerId := "a" },
                  { angle := 0, x := 1000, y := 1000, timeLeft := 500, playerId := "a" }]
    inputsMap := fun _ => some allFalse
    lastHitMap := fun _ => none
    botLearningData := fun _ => none
    draws := 0
    hitLog := [] }

/-- The world `solo` after one tick of 31 ms. -/
def soloAfter : World :=
  { players := [{ id := "a", x := 400, y := 400, isBot := false }]
    snowballs := [{ angle := 0, x := 1011, y := 1000, timeLeft := 469, playerId := "a" }]
    inputsMap := fun _ => some allFalse
    lastHitMap := fun _ => none
    botLearningData := fun _ => none
    draws := 0
    hitLog := [] }

/-- The first three `Math.random()` calls return `0`, the later ones `3/4`. -/
def cornerEnv : Env :=
  { decal2D := [[true]], math := flatMath, random := fun n => if n < 3 then 0 else 3 / 4 }

/-- A single bot, inside the world and clear of the solid tile, with no stored
behaviour state. -/
def cornerWorld : World :=
  { players := [{ id := "bot_0", x := 5, y := 40, isBot := true }]
    snowballs := []
    inputsMap := fun _ => none
    lastHitMap := fun _ => none
    botLearningData := fun _ => none
    draws := 0
    hitLog := [] }

/-- Two humans; the input entry of `a` is missing (the `inputs` event carried
`null`), the one of `b` holds the right key. -/
def orphanWorld : World :=
  { players := [{ id := "a", x := 100, y := 100, isBot := false },
                { id := "b", x := 300, y := 300, isBot := false }]
    snowballs := []
    inputsMap := fun k => if k = "b" then some { allFalse with right := true } else none
    lastHitMap := fun _ => none
    botLearningData := fun _ => none
    draws := 0
    hitLog := [] }

/-! ## Targets and trajectories -/

/-- Frequency `TICK_RATE` of the interval timer, in ticks per second; the
nominal tick period is `1000 / TICK_RATE` milliseconds. -/
def TICK_RATE : ℚ := 32

/-- The target of `updateBotBehavior`, the value of `nearestPlayer || nearestBot`. -/
def chooseTarget (M : JSMath) (players : List Player) (bot : Player) : Option Player :=
  findNearestTarget M players bot <|> findNearestBot M players bot

/-- The behaviour state `updateBotBehavior` starts from for `bot`. -/
def botDataOf (w : World) (bot : Player) : BotData :=
  (w.botLearningData bot.id).getD defaultBotData

/-- Snowball `s` sits in the list of `w` before a tick of `delta`, strikes no
entity in that tick, and the snowball loop of the tick leaves `s1` at its
index. -/
def fliesOneTick (env : Env) (delta : ℚ) (w : World) (s s1 : Snowball) : Prop :=
  ∃ (j : ℕ) (w1 w2 : World),
    w.snowballs[j]? = some s ∧
    tickPlayers env delta { w with hitLog := [] } w.players.length = .ok w1 ∧
    tick env delta w = .ok w2 ∧
    (∀ h ∈ w2.hitLog, h.1 ≠ j) ∧
    (sweepSnowballs env delta w1 w1.snowballs.length).snowballs[j]? = some s1

/-- The snowball `s` is carried to `sk` by `k` consecutive ticks of `delta` in
none of which it strikes an entity; the world around it is arbitrary at the
start of every tick. -/
inductive Flight (env : Env) (delta : ℚ) : ℕ → Snowball → Snowball → Prop where
  | spawn (s : Snowball) : Flight env delta 0 s s
  | step (k : ℕ) (s sk s1 : Snowball) (w : World) :
      Flight env delta k s sk → fliesOneTick env delta w sk s1 → Flight env delta (k + 1) s s1

/-- A table for `Math` that agrees with JavaScript at the arguments the bot
examples reach: `sqrt 160000 = 400`, `sqrt 10000 = 100`, `atan2 0 400 = 0`,
`cos 0 = 1`, `sin 0 = 0`. -/
def gridMath : JSMath :=
  { cos := fun _ => 1, sin := fun _ => 0
    sqrt := fun q => if q = 160000 then 400 else if q = 10000 then 100 else q
    atan2 := fun _ _ => 0 }

/-- The one-tile map with `gridMath`; the first three `Math.random()` calls
return `0`, the later ones `1/4`. -/
def gridEnv : Env :=
  { decal2D := [[true]], math := gridMath, random := fun n => if n < 3 then 0 else 1 / 4 }

/-- The bot of the bot examples. -/
def scout : Player := { id := "bot_0", x := 1000, y := 1000, isBot := true }

/-- A human 400 to the east of `scout`. -/
def farHuman : Player := { id := "far", x := 1400, y := 1000, isBot := false }

/-- A human 100 to the west of `scout`. -/
def nearHuman : Player := { id := "near", x := 900, y := 1000, isBot := false }

/-- The bot `scout` with two humans in sight, the farther one first in the
registry. -/
def crowdWorld : World :=
  { players := [scout, farHuman, nearHuman]
    snowballs := []
    inputsMap := fun _ => some allFalse
    lastHitMap := fun _ => none
    botLearningData := fun _ => none
    draws := 0
    hitLog := [] }

/-- The bot `scout` with one human 100 away and no stored behaviour state, so
that `attackCooldown` is `0`. -/
def closeWorld : World :=
  { players := [scout, nearHuman]
    snowballs := []
    inputsMap := fun _ => some allFalse
    lastHitMap := fun _ => none
    botLearningData := fun _ => none
    draws := 0
    hitLog := [] }

/-- The world `closeWorld` with a running attack cooldown of 50 ms for `scout`. -/
def fleeWorld : World :=
  { closeWorld with
    botLearningData := fun k =>
      if k = "bot_0" then some { defaultBotData with attackCooldown := 50 } else none }

/-! ## Overlap with solid tiles in the words of the specification -/

/-- The cell of row `row` and column `col` of the decal grid holds a tile. -/
def Decal.solid (decal2D : Decal) (row col : ℕ) : Prop :=
  ∃ r, decal2D[row]? = some r ∧ r[col]? = some true

/-- The square of side `PLAYER_SIZE` at the position of `p` and the square of
the tile of row `row` and column `col` share interior points (touching edges
do not count). -/
def boxOverlap (p : Player) (row col : ℕ) : Prop :=
  (col : ℚ) * TILE_SIZE < p.x + PLAYER_SIZE ∧ p.x < ((col : ℚ) + 1) * TILE_SIZE ∧
  (row : ℚ) * TILE_SIZE < p.y + PLAYER_SIZE ∧ p.y < ((row : ℚ) + 1) * TILE_SIZE

/-- The bounding box of `p` overlaps some solid decal tile of the grid. -/
def overlapsSolid (decal2D : Decal) (p : Player) : Prop :=
  ∃ row col, decal2D.solid row col ∧ boxOverlap p row col

/-- The bounding box of `p` overlaps some solid decal tile whose column is
below the length of the first row of the grid. -/
def overlapsScannedSolid (decal2D : Decal) (p : Player) : Prop :=
  ∃ row col, col < decal2D.cols ∧ decal2D.solid row col ∧ boxOverlap p row col

/-- Every row of the grid has the length of the first row. -/
def Decal.rectangular (decal2D : Decal) : Prop :=
  ∀ r ∈ decal2D, r.length = decal2D.cols

/-- One human next to the solid tile of `arenaEnv`, holding the left and the
down key. -/
def wallWorld : World :=
  { players := [{ id := "a", x := 40, y := 10, isBot := false }]
    snowballs := []
    inputsMap := fun _ => some { allFalse with down := true, left := true }
    lastHitMap := fun _ => none
    botLearningData := fun _ => none
    draws := 0
    hitLog := [] }

/-- A grid whose second row is longer than its first: the only solid tile is
the one of row 1, column 1. -/
def raggedEnv : Env :=
  { decal2D := [[false], [false, true]], math := flatMath, random := fun _ => 0 }

/-- One human holding the left key, ten to the east of `(40, 40)`. -/
def raggedWorld : World :=
  { players := [{ id := "a", x := 50, y := 40, isBot := false }]
    snowballs := []
    inputsMap := fun _ => some { allFalse with left := true }
    lastHitMap := fun _ => none
    botLearningData := fun _ => none
    draws := 0
    hitLog := [] }

/-- The world `raggedWorld` after one tick of 31 ms. -/
def raggedAfter : World :=
  { players := [{ id := "a", x := 40, y := 40, isBot := false }]
    snowballs := []
    inputsMap := fun _ => some { allFalse with left := true }
    lastHitMap := fun _ => none
    botLearningData := fun _ => none
    draws := 0
    hitLog := [] }

/-! ## The player loop -/

theorem tickPlayers_zero (env : Env) (delta : ℚ) (w : World) :
    tickPlayers env delta w 0 = .ok w := by
  simp [tickPlayers, pure, Except.pure]

theorem tickPlayers_succ (env : Env) (delta : ℚ) (w : World) (n : ℕ) :
    tickPlayers env delta w (n + 1) =
      (tickPlayers env delta w n >>= fun w' => stepPlayer env delta w' n) := by
  simp [tickPlayers, List.range_succ, List.foldlM_append]

theorem tickPlayers_succ_ok (env : Env) (delta : ℚ) (w w' : World) (n : ℕ)
    (h : tickPlayers env delta w (n + 1) = .ok w') :
    ∃ wm, tickPlayers env delta w n = .ok wm ∧ stepPlayer env delta wm n = .ok w' := by
  rw [tickPlayers_succ] at h
  cases hm : tickPlayers env delta w n with
  | error e => rw [hm] at h; cases h
  | ok wm => rw [hm] at h; exact ⟨wm, rfl, h⟩

theorem PlayerFrame.refl (w : World) : PlayerFrame w w :=
  ⟨rfl, rfl, rfl, fun _ => rfl, ⟨[], by simp⟩⟩

theorem PlayerFrame.trans {a b c : World} (h1 : PlayerFrame a b) (h2 : PlayerFrame b c) :
    PlayerFrame a c := by
  obtain ⟨e1, he1⟩ := h1.balls
  obtain ⟨e2, he2⟩ := h2.balls
  exact ⟨h2.len.trans h1.len, h2.inputs.trans h1.inputs, h2.log.trans h1.log,
    fun k => (h2.ident k).trans (h1.ident k), ⟨e1 ++ e2, by rw [he2, he1, List.append_assoc]⟩⟩

theorem getElem?_set_map_same {α β : Type} (l : List α) (i : ℕ) (a b : α) (f : α → β)
    (h : l[i]? = some a) (hf : f b = f a) (k : ℕ) :
    ((l.set i b)[k]?).map f = (l[k]?).map f := by
  by_cases hk : i = k
  · subst hk
    have hlt : i < l.length := by
      by_contra hc
      rw [List.getElem?_eq_none (by omega)] at h
      cases h
    simp [List.getElem?_set_self hlt, h, hf]
  · rw [List.getElem?_set_ne hk]

theorem stepPlayer_frame (env : Env) (delta : ℚ) (w w' : World) (i : ℕ)
    (h : stepPlayer env delta w i = .ok w') :
    PlayerFrame w w' ∧ ∀ k, k ≠ i → w'.players[k]? = w.players[k]? := by
  unfold stepPlayer at h
  cases hp : w.players[i]? with
  | none =>
    rw [hp] at h
    cases h
    exact ⟨PlayerFrame.refl w, fun _ _ => rfl⟩
  | some player =>
    rw [hp] at h
    by_cases hb : player.isBot = true
    · simp only [hb, if_true, pure, Except.pure] at h
      cases h
      refine ⟨⟨by simp [updateBotBehavior], rfl, rfl, ?_, ?_⟩, ?_⟩
      · intro k
        simp only [updateBotBehavior]
        exact getElem?_set_map_same _ _ _ _ _ hp (by rfl) k
      · simp only [updateBotBehavior]
        cases (botDecide env delta w player).fired with
        | none => exact ⟨[], by simp⟩
        | some s => exact ⟨[s], rfl⟩
      · intro k hk
        simp only [updateBotBehavior]
        rw [List.getElem?_set_ne (Ne.symm hk)]
    · simp only [hb] at h
      cases hin : w.inputsMap player.id with
      | none => rw [hin] at h; cases h
      | some inputs =>
        rw [hin] at h
        simp only [pure, Except.pure] at h
        cases h
        refine ⟨⟨by simp, rfl, rfl, ?_, ⟨[], by simp⟩⟩, ?_⟩
        · intro k
          refine getElem?_set_map_same _ _ _ _ _ hp ?_ k
          simp only [humanStep, applyInputs]
          split_ifs <;> rfl
        · intro k hk
          exact List.getElem?_set_ne (Ne.symm hk)


theorem tickPlayers_frame (env : Env) (delta : ℚ) (w : World) :
    ∀ (n : ℕ) (w' : World), tickPlayers env delta w n = .ok w' →
      PlayerFrame w w' ∧ ∀ k, n ≤ k → w'.players[k]? = w.players[k]? := by
  intro n
  induction n with
  | zero =>
    intro w' h
    rw [tickPlayers_zero] at h
    cases h
    exact ⟨PlayerFrame.refl w, fun _ _ => rfl⟩
  | succ n ih =>
    intro w' h
    obtain ⟨wm, hm, hs⟩ := tickPlayers_succ_ok env delta w w' n h
    obtain ⟨f1, k1⟩ := ih wm hm
    obtain ⟨f2, k2⟩ := stepPlayer_frame env delta wm w' n hs
    refine ⟨f1.trans f2, fun k hk => ?_⟩
    rw [k2 k (by omega), k1 k (by omega)]

theorem stepPlayer_human (env : Env) (delta : ℚ) (w : World) (i : ℕ) (p : Player)
    (inp : Inputs) (hp : w.players[i]? = some p) (hb : p.isBot = false)
    (hin : w.inputsMap p.id = some inp) :
    stepPlayer env delta w i =
      .ok { w with players := w.players.set i (humanStep env.decal2D inp p) } := by
  simp [stepPlayer, hp, hb, hin, pure, Except.pure]

theorem getElem?_lt_of_eq_some {α : Type} (l : List α) (i : ℕ) (a : α) (h : l[i]? = some a) :
    i < l.length := by
  by_contra hc
  rw [List.getElem?_eq_none (by omega)] at h
  cases h

theorem tickPlayers_human (env : Env) (delta : ℚ) (w : World) (i : ℕ) (p : Player)
    (inp : Inputs) (hp : w.players[i]? = some p) (hb : p.isBot = false)
    (hin : w.inputsMap p.id = some inp) :
    ∀ (n : ℕ) (w' : World), i < n → tickPlayers env delta w n = .ok w' →
      w'.players[i]? = some (humanStep env.decal2D inp p) := by
  intro n
  induction n with
  | zero => intro w' hi; omega
  | succ n ih =>
    intro w' hi h
    obtain ⟨wm, hm, hs⟩ := tickPlayers_succ_ok env delta w w' n h
    by_cases hlt : i < n
    · obtain ⟨_, k2⟩ := stepPlayer_frame env delta wm w' n hs
      rw [k2 i (by omega)]
      exact ih wm hlt hm
    · have hin' : i = n := by omega
      subst hin'
      obtain ⟨f1, k1⟩ := tickPlayers_frame env delta w i wm hm
      have hp' : wm.players[i]? = some p := by rw [k1 i le_rfl]; exact hp
      have hin2 : wm.inputsMap p.id = some inp := by rw [f1.inputs]; exact hin
      rw [stepPlayer_human env delta wm i p inp hp' hb hin2] at hs
      cases hs
      have hlen := getElem?_lt_of_eq_some _ _ _ hp'
      simp [List.getElem?_set_self hlen]

theorem tickPlayers_total (env : Env) (delta : ℚ) (w : World)
    (hall : ∀ p ∈ w.players, p.isBot = false → (w.inputsMap p.id).isSome = true) :
    ∀ n : ℕ, ∃ w', tickPlayers env delta w n = .ok w' := by
  intro n
  induction n with
  | zero => exact ⟨w, tickPlayers_zero env delta w⟩
  | succ n ih =>
    obtain ⟨wm, hm⟩ := ih
    obtain ⟨f1, _⟩ := tickPlayers_frame env delta w n wm hm
    rw [tickPlayers_succ, hm]
    show ∃ w', stepPlayer env delta wm n = .ok w'
    unfold stepPlayer
    cases hq : wm.players[n]? with
    | none => exact ⟨wm, rfl⟩
    | some q =>
      by_cases hb : q.isBot = true
      · simp only [hb, if_true]
        exact ⟨_, rfl⟩
      · have hid := f1.ident n
        rw [hq] at hid
        cases hq0 : w.players[n]? with
        | none => rw [hq0] at hid; cases hid
        | some q0 =>
          rw [hq0] at hid
          simp only [Option.map_some', Option.some.injEq, Prod.mk.injEq] at hid
          have hmem : q0 ∈ w.players := List.getElem?_mem hq0
          have hbq : q0.isBot = false := by rw [← hid.2]; simpa using hb
          have hsome := hall q0 hmem hbq
          rw [← hid.1] at hsome
          simp only [hb]
          cases hi : wm.inputsMap q.id with
          | none => rw [f1.inputs] at hi; rw [hi] at hsome; cases hsome
          | some inp => exact ⟨_, rfl⟩

/-! ## The snowball loop -/

theorem sweepSnowballs_zero (env : Env) (delta : ℚ) (w : World) :
    sweepSnowballs env delta w 0 = w := by
  simp [sweepSnowballs]

theorem sweepSnowballs_succ (env : Env) (delta : ℚ) (w : World) (n : ℕ) :
    sweepSnowballs env delta w (n + 1) =
      stepSnowball env delta (sweepSnowballs env delta w n) n := by
  simp [sweepSnowballs, List.range_succ, List.foldl_append]

/-- The three ways one iteration of the snowball loop can go. -/
theorem stepSnowball_cases (env : Env) (delta : ℚ) (w : World) (j : ℕ) :
    (w.snowballs[j]? = none ∧ stepSnowball env delta w j = w) ∨
    (∃ s, w.snowballs[j]? = some s ∧
      firstStruck env.math (advance env.math delta s) w.players = none ∧
      stepSnowball env delta w j =
        { w with snowballs := w.snowballs.set j (advance env.math delta s) }) ∨
    (∃ s k victim, w.snowballs[j]? = some s ∧
      firstStruck env.math (advance env.math delta s) w.players = some (k, victim) ∧
      stepSnowball env delta w j =
        { w with
          lastHitMap := fun key =>
            if key = victim.id then
              some (w.players.findIdx? fun p => p.id == (advance env.math delta s).playerId)
            else w.lastHitMap key
          players := w.players.set k
            { victim with x := getRandomPosition (env.random w.draws)
                          y := getRandomPosition (env.random (w.draws + 1)) }
          snowballs := w.snowballs.set j { advance env.math delta s with timeLeft := -1 }
          draws := w.draws + 2
          hitLog := w.hitLog ++ [(j, k)] }) := by
  unfold stepSnowball
  cases hs : w.snowballs[j]? with
  | none => exact Or.inl ⟨rfl, rfl⟩
  | some s =>
    cases hf : firstStruck env.math (advance env.math delta s) w.players with
    | none => exact Or.inr (Or.inl ⟨s, rfl, hf, by simp [hf]⟩)
    | some r =>
      obtain ⟨k, victim⟩ := r
      exact Or.inr (Or.inr ⟨s, k, victim, rfl, hf, by simp [hf]⟩)


theorem stepSnowball_len (env : Env) (delta : ℚ) (w : World) (j : ℕ) :
    (stepSnowball env delta w j).snowballs.length = w.snowballs.length ∧
      (stepSnowball env delta w j).players.length = w.players.length := by
  rcases stepSnowball_cases env delta w j with ⟨_, h⟩ | ⟨s, _, _, h⟩ | ⟨s, k, v, _, _, h⟩ <;>
    rw [h] <;> simp

theorem stepSnowball_log (env : Env) (delta : ℚ) (w : World) (j : ℕ) :
    ∃ extra, (stepSnowball env delta w j).hitLog = w.hitLog ++ extra := by
  rcases stepSnowball_cases env delta w j with ⟨_, h⟩ | ⟨s, _, _, h⟩ | ⟨s, k, v, _, _, h⟩
  · exact ⟨[], by rw [h]; simp⟩
  · exact ⟨[], by rw [h]; simp⟩
  · exact ⟨[(j, k)], by rw [h]⟩

theorem stepSnowball_other (env : Env) (delta : ℚ) (w : World) (j j' : ℕ) (hne : j' ≠ j) :
    (stepSnowball env delta w j).snowballs[j']? = w.snowballs[j']? := by
  rcases stepSnowball_cases env delta w j with ⟨_, h⟩ | ⟨s, _, _, h⟩ | ⟨s, k, v, _, _, h⟩ <;>
    rw [h]
  · exact List.getElem?_set_ne (Ne.symm hne)
  · exact List.getElem?_set_ne (Ne.symm hne)

theorem stepSnowball_keep_player (env : Env) (delta : ℚ) (w : World) (j i : ℕ)
    (hmiss : ∀ h ∈ (stepSnowball env delta w j).hitLog, h.2 ≠ i) :
    (stepSnowball env delta w j).players[i]? = w.players[i]? := by
  rcases stepSnowball_cases env delta w j with ⟨_, h⟩ | ⟨s, _, _, h⟩ | ⟨s, k, v, _, _, h⟩
  · rw [h]
  · rw [h]
  · rw [h] at hmiss ⊢
    have hk : k ≠ i := hmiss (j, k) (by simp)
    exact List.getElem?_set_ne hk

theorem stepSnowball_nohit (env : Env) (delta : ℚ) (w : World) (j : ℕ) (s : Snowball)
    (hs : w.snowballs[j]? = some s)
    (hmiss : ∀ h ∈ (stepSnowball env delta w j).hitLog, h.1 ≠ j) :
    (stepSnowball env delta w j).snowballs[j]? = some (advance env.math delta s) := by
  have hlt := getElem?_lt_of_eq_some _ _ _ hs
  rcases stepSnowball_cases env delta w j with ⟨h0, _⟩ | ⟨s', hs', _, h⟩ | ⟨s', k, v, _, _, h⟩
  · rw [h0] at hs; cases hs
  · rw [hs] at hs'
    cases hs'
    rw [h]
    simp [List.getElem?_set_self hlt]
  · rw [h] at hmiss
    exact absurd rfl (hmiss (j, k) (by simp))

theorem sweepSnowballs_len (env : Env) (delta : ℚ) (w : World) (n : ℕ) :
    (sweepSnowballs env delta w n).snowballs.length = w.snowballs.length ∧
      (sweepSnowballs env delta w n).players.length = w.players.length := by
  induction n with
  | zero => simp [sweepSnowballs_zero]
  | succ n ih =>
    rw [sweepSnowballs_succ]
    obtain ⟨h1, h2⟩ := stepSnowball_len env delta (sweepSnowballs env delta w n) n
    exact ⟨h1.trans ih.1, h2.trans ih.2⟩

theorem sweepSnowballs_log (env : Env) (delta : ℚ) (w : World) (n m : ℕ) (h : n ≤ m) :
    ∃ extra, (sweepSnowballs env delta w m).hitLog =
      (sweepSnowballs env delta w n).hitLog ++ extra := by
  induction m with
  | zero =>
    have : n = 0 := by omega
    subst this
    exact ⟨[], by simp⟩
  | succ m ih =>
    by_cases hnm : n = m + 1
    · subst hnm
      exact ⟨[], by simp⟩
    · obtain ⟨e1, he1⟩ := ih (by omega)
      obtain ⟨e2, he2⟩ := stepSnowball_log env delta (sweepSnowballs env delta w m) m
      refine ⟨e1 ++ e2, ?_⟩
      rw [sweepSnowballs_succ, he2, he1, List.append_assoc]

theorem sweepSnowballs_before (env : Env) (delta : ℚ) (w : World) (j n : ℕ) (h : n ≤ j) :
    (sweepSnowballs env delta w n).snowballs[j]? = w.snowballs[j]? := by
  induction n with
  | zero => rw [sweepSnowballs_zero]
  | succ n ih =>
    rw [sweepSnowballs_succ, stepSnowball_other env delta _ n j (by omega)]
    exact ih (by omega)

theorem sweepSnowballs_after (env : Env) (delta : ℚ) (w : World) (j n : ℕ) (h : j < n) :
    (sweepSnowballs env delta w n).snowballs[j]? =
      (sweepSnowballs env delta w (j + 1)).snowballs[j]? := by
  induction n with
  | zero => omega
  | succ n ih =>
    by_cases hjn : j = n
    · subst hjn; rfl
    · rw [sweepSnowballs_succ, stepSnowball_other env delta _ n j hjn]
      exact ih (by omega)

theorem sweepSnowballs_keep_player (env : Env) (delta : ℚ) (w : World) (i n : ℕ)
    (hmiss : ∀ h ∈ (sweepSnowballs env delta w n).hitLog, h.2 ≠ i) :
    (sweepSnowballs env delta w n).players[i]? = w.players[i]? := by
  induction n with
  | zero => rw [sweepSnowballs_zero]
  | succ n ih =>
    rw [sweepSnowballs_succ] at hmiss ⊢
    rw [stepSnowball_keep_player env delta _ n i hmiss]
    apply ih
    obtain ⟨extra, he⟩ := stepSnowball_log env delta (sweepSnowballs env delta w n) n
    intro h hh
    exact hmiss h (by rw [he]; exact List.mem_append_left _ hh)

theorem sweepSnowballs_nohit (env : Env) (delta : ℚ) (w : World) (j n : ℕ) (s : Snowball)
    (hs : w.snowballs[j]? = some s) (hjn : j < n)
    (hmiss : ∀ h ∈ (sweepSnowballs env delta w n).hitLog, h.1 ≠ j) :
    (sweepSnowballs env delta w n).snowballs[j]? = some (advance env.math delta s) := by
  rw [sweepSnowballs_after env delta w j n hjn, sweepSnowballs_succ]
  apply stepSnowball_nohit
  · rw [sweepSnowballs_before env delta w j j le_rfl]; exact hs
  · rw [← sweepSnowballs_succ]
    obtain ⟨extra, he⟩ := sweepSnowballs_log env delta w (j + 1) n (by omega)
    intro h hh
    exact hmiss h (by rw [he]; exact List.mem_append_left _ hh)

theorem tick_ok (env : Env) (delta : ℚ) (w w' : World) (h : tick env delta w = .ok w') :
    ∃ w1, tickPlayers env delta { w with hitLog := [] } w.players.length = .ok w1 ∧
      w' = { sweepSnowballs env delta w1 w1.snowballs.length with
             snowballs := (sweepSnowballs env delta w1 w1.snowballs.length).snowballs.filter
               fun s => decide (s.timeLeft > 0) } := by
  unfold tick at h
  cases h1 : tickPlayers env delta { w with hitLog := [] } w.players.length with
  | error e => rw [h1] at h; cases h
  | ok w1 =>
    rw [h1] at h
    refine ⟨w1, rfl, ?_⟩
    cases h
    rfl

/-! ## The skill progression store -/

theorem set_same (store : LearningData) (k : String) (p : Profile) :
    store.set k p k = some p := by
  simp [LearningData.set]

theorem updateExperience_some (store : LearningData) (k : String) (bot : Profile) (a : ℚ)
    (h : store k = some bot) :
    updateExperience store k a k = some (bot.updateExperience a) := by
  simp [updateExperience, h, set_same]

theorem recordHit_some (store : LearningData) (botId : String) (bot : Profile)
    (h : store botId = some bot) :
    recordHit store botId botId =
      some (if accuracyAboveHalf (bot.stats.hits + 1) bot.stats.shots then
        (({ bot with stats := { bot.stats with hits := bot.stats.hits + 1 } } :
          Profile).updateExperience 50).updateExperience 20
      else ({ bot with stats := { bot.stats with hits := bot.stats.hits + 1 } } :
          Profile).updateExperience 50) := by
  simp only [recordHit, h]
  split_ifs
  · rw [updateExperience_some _ _ _ _ (updateExperience_some _ _ _ _ (set_same _ _ _))]
  · rw [updateExperience_some _ _ _ _ (set_same _ _ _)]

theorem recordHit_gain (store : LearningData) (botId : String) (bot : Profile)
    (h : store botId = some bot) (hs : 0 < bot.stats.shots) :
    ∃ bot', recordHit store botId botId = some bot' ∧
      bot'.stats.hits = bot.stats.hits + 1 ∧
      bot'.stats.shots = bot.stats.shots ∧
      ((1 : ℚ) / 2 < ((bot.stats.hits + 1 : ℕ) : ℚ) / (bot.stats.shots : ℚ) →
        bot'.experience = bot.experience + 70) ∧
      (¬ ((1 : ℚ) / 2 < ((bot.stats.hits + 1 : ℕ) : ℚ) / (bot.stats.shots : ℚ)) →
        bot'.experience = bot.experience + 50) := by
  have hs0 : bot.stats.shots ≠ 0 := by omega
  refine ⟨_, recordHit_some store botId bot h, ?_⟩
  by_cases hacc : (1 : ℚ) / 2 < ((bot.stats.hits + 1 : ℕ) : ℚ) / (bot.stats.shots : ℚ)
  · simp only [accuracyAboveHalf, hs0, if_false, hacc, decide_True, if_true]
    refine ⟨rfl, rfl, fun _ => ?_, fun hn => absurd trivial hn⟩
    simp only [Profile.updateExperience]; ring
  · simp only [accuracyAboveHalf, hs0, if_false, hacc, decide_False]
    refine ⟨rfl, rfl, fun hn => absurd hn (by simp), fun _ => ?_⟩
    simp [Profile.updateExperience]

theorem recordKill_some (store : LearningData) (botId : String) (bot : Profile)
    (h : store botId = some bot) :
    recordKill store botId botId =
      some (if (bot.stats.kills + 1) % 5 = 0 then
        (({ bot with stats := { bot.stats with kills := bot.stats.kills + 1 } } :
          Profile).updateExperience 100).updateExperience 50
      else ({ bot with stats := { bot.stats with kills := bot.stats.kills + 1 } } :
          Profile).updateExperience 100) := by
  simp only [recordKill, h]
  rw [updateExperience_some _ _ _ _ (set_same _ _ _)]
  simp only [Profile.updateExperience]
  split_ifs
  · rw [updateExperience_some _ _ _ _ (updateExperience_some _ _ _ _ (set_same _ _ _))]
    rfl
  · rw [updateExperience_some _ _ _ _ (set_same _ _ _)]
    rfl

theorem recordKill_step (store : LearningData) (botId : String) (bot : Profile)
    (h : store botId = some bot) :
    ∃ bot', recordKill store botId botId = some bot' ∧
      bot'.stats.kills = bot.stats.kills + 1 ∧
      ((bot.stats.kills + 1) % 5 = 0 → bot'.experience = bot.experience + 150) ∧
      ((bot.stats.kills + 1) % 5 ≠ 0 → bot'.experience = bot.experience + 100) := by
  refine ⟨_, recordKill_some store botId bot h, ?_⟩
  by_cases h5 : (bot.stats.kills + 1) % 5 = 0
  · simp only [h5, if_true]
    refine ⟨rfl, fun _ => ?_, fun hn => absurd rfl hn⟩
    simp only [Profile.updateExperience]; ring
  · simp only [h5, if_false]
    refine ⟨rfl, fun hn => absurd hn (by simp), fun _ => ?_⟩
    simp [Profile.updateExperience]

theorem recordKill_iterate (botId : String) (n : ℕ) :
    ∀ (store : LearningData) (bot : Profile), store botId = some bot →
      ∃ bot', ((fun s => recordKill s botId)^[n] store) botId = some bot' ∧
        bot'.stats.kills = bot.stats.kills + n ∧
        bot'.experience + 50 * ((bot.stats.kills / 5 : ℕ) : ℚ) =
          bot.experience + 100 * (n : ℚ) + 50 * (((bot.stats.kills + n) / 5 : ℕ) : ℚ) := by
  induction n with
  | zero =>
    intro store bot h
    exact ⟨bot, by simpa using h, by simp, by simp⟩
  | succ n ih =>
    intro store bot h
    obtain ⟨b1, hb1, hk1, h5, hn5⟩ := recordKill_step store botId bot h
    obtain ⟨b2, hb2, hk2, he2⟩ := ih (recordKill store botId) b1 hb1
    refine ⟨b2, by rw [Function.iterate_succ_apply]; exact hb2, by omega, ?_⟩
    rw [hk1] at he2
    have hidx : bot.stats.kills + 1 + n = bot.stats.kills + (n + 1) := by omega
    rw [hidx] at he2
    by_cases hm : (bot.stats.kills + 1) % 5 = 0
    · have hq : (bot.stats.kills + 1) / 5 = bot.stats.kills / 5 + 1 := by omega
      rw [hq, h5 hm] at he2
      push_cast at he2 ⊢
      linarith
    · have hq : (bot.stats.kills + 1) / 5 = bot.stats.kills / 5 := by omega
      rw [hq, hn5 hm] at he2
      push_cast at he2 ⊢
      linarith

theorem recordDeath_some (store : LearningData) (botId : String) (bot : Profile)
    (h : store botId = some bot) :
    recordDeath store botId botId =
      some (if (bot.stats.deaths + 1) % 5 = 0 then
        { ({ bot with stats := { bot.stats with deaths := bot.stats.deaths + 1 } } :
            Profile).updateExperience 10 with
          skills :=
            { (({ bot with stats := { bot.stats with deaths := bot.stats.deaths + 1 } } :
                Profile).updateExperience 10).skills with
              survival := min 1 ((({ bot with stats := { bot.stats with deaths :=
                bot.stats.deaths + 1 } } : Profile).updateExperience 10).skills.survival
                  + 1 / 10) } }
      else ({ bot with stats := { bot.stats with deaths := bot.stats.deaths + 1 } } :
          Profile).updateExperience 10) := by
  simp only [recordDeath, h]
  rw [updateExperience_some _ _ _ _ (set_same _ _ _)]
  simp only [Profile.updateExperience]
  split_ifs
  · rw [set_same]
  · rw [updateExperience_some _ _ _ _ (set_same _ _ _)]
    rfl

/-! ## Evaluation of the examples -/

theorem tickPlayers_arena :
    tickPlayers arenaEnv 31 { arena with hitLog := [] } arena.players.length = .ok arenaMoved := by
  simp [tickPlayers, stepPlayer, humanStep, applyInputs, arena, arenaEnv, arenaMoved,
    allFalse, isCollidingWithMap, isColliding, Decal.tile, Decal.cols, List.range,
    List.range.loop, MAP_SIZE, PLAYER_SIZE, SPEED, TILE_SIZE, bind, Except.bind, pure,
    Except.pure]
  norm_num

theorem tick_arena : tick arenaEnv 31 arena = .ok arenaAfter := by
  simp [tick, tickPlayers, sweepSnowballs, stepPlayer, stepSnowball, advance, firstStruck,
    strikes, calculateDistance, humanStep, applyInputs, arena, arenaEnv, arenaAfter, allFalse,
    flatMath, isCollidingWithMap, isColliding, Decal.tile, Decal.cols, List.range,
    List.range.loop, getRandomPosition, MAP_SIZE, PLAYER_SIZE, SPEED, TILE_SIZE, SNOWBALL_SPEED,
    bind, Except.bind, pure, Except.pure]
  norm_num

theorem tick_solo : tick arenaEnv 31 solo = .ok soloAfter := by
  simp [tick, tickPlayers, sweepSnowballs, stepPlayer, stepSnowball, advance, firstStruck,
    strikes, calculateDistance, humanStep, applyInputs, solo, arenaEnv, soloAfter, allFalse,
    flatMath, isCollidingWithMap, isColliding, Decal.tile, Decal.cols, List.range,
    List.range.loop, getRandomPosition, MAP_SIZE, PLAYER_SIZE, SPEED, TILE_SIZE, SNOWBALL_SPEED,
    bind, Except.bind, pure, Except.pure]
  norm_num

/-! ## The move of a human player -/

theorem clampWorld_sub (v : ℚ) (h : v ≤ MAP_SIZE - PLAYER_SIZE) :
    clampWorld (v - SPEED) = max 0 (v - SPEED) := by
  unfold clampWorld
  rw [min_eq_left]
  simp only [SPEED, MAP_SIZE, PLAYER_SIZE] at h ⊢
  linarith

theorem clampWorld_add (v : ℚ) (h : 0 ≤ v) :
    clampWorld (v + SPEED) = min (MAP_SIZE - PLAYER_SIZE) (v + SPEED) := by
  unfold clampWorld
  rw [min_comm, max_eq_right]
  apply le_min
  · norm_num [MAP_SIZE, PLAYER_SIZE]
  · simp only [SPEED]; linarith

theorem applyInputs_eq_specMoved (inputs : Inputs) (p : Player) (hb : inBounds p) :
    applyInputs inputs p = specMoved inputs p := by
  obtain ⟨hx0, hx1, hy0, hy1⟩ := hb
  have hy2 : max 0 (p.y - SPEED) ≤ MAP_SIZE - PLAYER_SIZE := by
    apply max_le
    · norm_num [MAP_SIZE, PLAYER_SIZE]
    · simp only [SPEED]; linarith
  have hx2 : max 0 (p.x - SPEED) ≤ MAP_SIZE - PLAYER_SIZE := by
    apply max_le
    · norm_num [MAP_SIZE, PLAYER_SIZE]
    · simp only [SPEED]; linarith
  obtain ⟨u, d, l, r⟩ := inputs
  cases u <;> cases d <;> cases l <;> cases r <;>
    simp [applyInputs, specMoved, clampWorld_sub _ hx1, clampWorld_sub _ hy1,
      clampWorld_add _ hx0, clampWorld_add _ hy0,
      clampWorld_add _ (le_max_left 0 (p.x - SPEED)),
      clampWorld_add _ (le_max_left 0 (p.y - SPEED))]

theorem humanStep_allFalse (decal2D : Decal) (p : Player) :
    humanStep decal2D allFalse p = p := by
  simp [humanStep, applyInputs, allFalse]

theorem tick_human_core (env : Env) (delta : ℚ) (w w' : World) (i : ℕ) (p : Player)
    (inp : Inputs) (ht : tick env delta w = .ok w') (hp : w.players[i]? = some p)
    (hb : p.isBot = false) (hin : w.inputsMap p.id = some inp)
    (hmiss : ∀ h ∈ w'.hitLog, h.2 ≠ i) :
    w'.players[i]? = some (humanStep env.decal2D inp p) := by
  obtain ⟨w1, h1, hw'⟩ := tick_ok env delta w w' ht
  subst hw'
  have hlt : i < w.players.length := getElem?_lt_of_eq_some _ _ _ hp
  have hstep := tickPlayers_human env delta { w with hitLog := [] } i p inp hp hb hin
    w.players.length w1 hlt h1
  show (sweepSnowballs env delta w1 w1.snowballs.length).players[i]? = _
  rw [sweepSnowballs_keep_player env delta w1 i _ hmiss]
  exact hstep

theorem tick_total (env : Env) (delta : ℚ) (w : World)
    (hall : ∀ p ∈ w.players, p.isBot = false → (w.inputsMap p.id).isSome = true) :
    ∃ w', tick env delta w = .ok w' := by
  obtain ⟨w1, h1⟩ := tickPlayers_total env delta { w with hitLog := [] } hall w.players.length
  refine ⟨{ sweepSnowballs env delta w1 w1.snowballs.length with
    snowballs := (sweepSnowballs env delta w1 w1.snowballs.length).snowballs.filter
      fun s => decide (s.timeLeft > 0) }, ?_⟩
  unfold tick
  rw [h1]
  rfl

theorem tick_players_length (env : Env) (delta : ℚ) (w w' : World)
    (ht : tick env delta w = .ok w') : w'.players.length = w.players.length := by
  obtain ⟨w1, h1, hw'⟩ := tick_ok env delta w w' ht
  subst hw'
  obtain ⟨f1, _⟩ := tickPlayers_frame env delta { w with hitLog := [] } _ w1 h1
  show (sweepSnowballs env delta w1 w1.snowballs.length).players.length = _
  rw [(sweepSnowballs_len env delta w1 _).2]
  exact f1.len

/-! ## Strikes -/

theorem firstStruck_some (M : JSMath) (s : Snowball) :
    ∀ (l : List Player) (k : ℕ) (v : Player), firstStruck M s l = some (k, v) →
      l[k]? = some v ∧ strikes M s v = true ∧
        ∀ (k' : ℕ) (q : Player), k' < k → l[k']? = some q → strikes M s q = false := by
  intro l
  induction l with
  | nil => intro k v h; simp [firstStruck] at h
  | cons p rest ih =>
    intro k v h
    unfold firstStruck at h
    by_cases hp : strikes M s p = true
    · simp only [hp, if_true, Option.some.injEq, Prod.mk.injEq] at h
      obtain ⟨hk, hv⟩ := h
      subst hk; subst hv
      exact ⟨by simp, hp, fun k' q hk' _ => absurd hk' (by omega)⟩
    · simp only [hp] at h
      cases hr : firstStruck M s rest with
      | none => rw [hr] at h; simp at h
      | some r =>
        rw [hr] at h
        obtain ⟨k0, v0⟩ := r
        simp at h
        obtain ⟨hk, hv⟩ := h
        subst hk
        subst hv
        obtain ⟨h1, h2, h3⟩ := ih k0 v0 hr
        refine ⟨by simpa using h1, h2, ?_⟩
        intro k' q hk' hq
        cases k' with
        | zero =>
          simp only [List.getElem?_cons_zero, Option.some.injEq] at hq
          subst hq
          simpa using hp
        | succ k'' =>
          simp only [List.getElem?_cons_succ] at hq
          exact h3 k'' q (by omega) hq

theorem firstStruck_exists (M : JSMath) (s : Snowball) :
    ∀ (l : List Player) (q : Player), q ∈ l → strikes M s q = true →
      ∃ k v, firstStruck M s l = some (k, v) := by
  intro l
  induction l with
  | nil => intro q hq; simp at hq
  | cons p rest ih =>
    intro q hq hs
    unfold firstStruck
    by_cases hp : strikes M s p = true
    · exact ⟨0, p, by simp [hp]⟩
    · have hq' : q ∈ rest := by
        rcases List.mem_cons.mp hq with h | h
        · subst h; exact absurd hs hp
        · exact h
      obtain ⟨k, v, hkv⟩ := ih q hq' hs
      exact ⟨k + 1, v, by simp [hp, hkv]⟩

theorem filter_eraseIdx {α : Type} (p : α → Bool) :
    ∀ (l : List α) (j : ℕ) (a : α), l[j]? = some a → p a = false →
      l.filter p = (l.eraseIdx j).filter p := by
  intro l
  induction l with
  | nil => intro j a h; simp at h
  | cons b rest ih =>
    intro j a h hp
    cases j with
    | zero =>
      simp only [List.getElem?_cons_zero, Option.some.injEq] at h
      subst h
      simp [List.filter, hp]
    | succ j' =>
      simp only [List.getElem?_cons_succ] at h
      simp only [List.eraseIdx_cons_succ, List.filter_cons]
      rw [ih j' a h hp]

theorem getRandomPosition_bounds (r : ℚ) (h0 : 0 ≤ r) (h1 : r < 1) :
    0 ≤ getRandomPosition r ∧ getRandomPosition r ≤ MAP_SIZE - PLAYER_SIZE := by
  unfold getRandomPosition
  norm_num [MAP_SIZE, PLAYER_SIZE]
  constructor <;> linarith

/-! ## Claims about the skill progression store -/

/-- C3 (code defect): `updateExperience(id, 300)` on a freshly initialised
profile gives level 2 and combat 0 but survival `-0.35`, below the range
`[0, 1]`; and `updateExperience(id, 0)` leaves the profile at level 1 with
combat `-0.3` and survival `-0.7`. -/
theorem updateExperience_fresh_skills_negative :
    (∃ p, updateExperience (initializeBot (fun _ => none) "bot_0" 0) "bot_0" 300 "bot_0" = some p ∧
      p.level = 2 ∧ p.skills.combat = 0 ∧ p.skills.survival = -7 / 20 ∧
      ¬ (0 ≤ p.skills.survival)) ∧
    (∃ p, updateExperience (initializeBot (fun _ => none) "bot_0" 0) "bot_0" 0 "bot_0" = some p ∧
      p.level = 1 ∧ p.skills.combat = -3 / 10 ∧ p.skills.survival = -7 / 10) := by
  have hinit : initializeBot (fun _ => none) "bot_0" 0 "bot_0" = some (freshProfile 0) := by
    simp [initializeBot, set_same]
  refine ⟨⟨(freshProfile 0).updateExperience 300,
      updateExperience_some _ _ _ _ hinit, ?_, ?_, ?_, ?_⟩,
    ⟨(freshProfile 0).updateExperience 0, updateExperience_some _ _ _ _ hinit, ?_, ?_, ?_⟩⟩
  all_goals simp [Profile.updateExperience, freshProfile]
  all_goals norm_num

/-- C4: for an existing profile with non-negative experience `e` and a
non-negative amount `a`, `updateExperience` leaves experience `e + a` (never
less than before) and level `floor((e + a) / 300) + 1`; a fresh profile given
300 reaches level 2 and given 299 stays at level 1. -/
theorem updateExperience_experience_and_level (store : LearningData) (botId : String)
    (bot : Profile) (a : ℚ) (h : store botId = some bot) (he : 0 ≤ bot.experience)
    (ha : 0 ≤ a) :
    (∃ bot', updateExperience store botId a botId = some bot' ∧
      bot'.experience = bot.experience + a ∧
      bot.experience ≤ bot'.experience ∧ 0 ≤ bot'.experience ∧
      bot'.level = ⌊(bot.experience + a) / 300⌋ + 1) ∧
    (∀ wander : ℚ,
      (freshProfile wander).experience = 0 ∧ (freshProfile wander).level = 1 ∧
      (∃ p, updateExperience (initializeBot (fun _ => none) botId wander) botId 300 botId
          = some p ∧ p.level = 2) ∧
      (∃ p, updateExperience (initializeBot (fun _ => none) botId wander) botId 299 botId
          = some p ∧ p.level = 1)) := by
  refine ⟨⟨bot.updateExperience a, updateExperience_some store botId bot a h, rfl, ?_, ?_, rfl⟩,
    fun wander => ?_⟩
  · simp only [Profile.updateExperience]; linarith
  · simp only [Profile.updateExperience]; linarith
  · have hinit : initializeBot (fun _ => none) botId wander botId
        = some (freshProfile wander) := by
      simp [initializeBot, set_same]
    refine ⟨rfl, rfl, ⟨_, updateExperience_some _ _ _ _ hinit, ?_⟩,
      ⟨_, updateExperience_some _ _ _ _ hinit, ?_⟩⟩
    · simp [Profile.updateExperience, freshProfile]
    · simp [Profile.updateExperience, freshProfile]
      norm_num [Int.floor_eq_iff]

/-- Witness of C4 on the stored profile `veteran` (experience 1200) with amount 300. -/
theorem updateExperience_experience_and_level_witness :
    (veteranStore "bot_0" = some veteran ∧ (0 : ℚ) ≤ veteran.experience ∧ (0 : ℚ) ≤ 300) ∧
    ∃ bot', updateExperience veteranStore "bot_0" 300 "bot_0" = some bot' ∧
      bot'.experience = veteran.experience + 300 ∧
      bot'.level = ⌊(veteran.experience + 300) / 300⌋ + 1 := by
  have hv : veteranStore "bot_0" = some veteran := by simp [veteranStore]
  have he : (0 : ℚ) ≤ veteran.experience := by norm_num [veteran]
  have ha : (0 : ℚ) ≤ 300 := by norm_num
  obtain ⟨⟨b, hb, hexp, _, _, hlvl⟩, _⟩ :=
    updateExperience_experience_and_level veteranStore "bot_0" veteran 300 hv he ha
  exact ⟨⟨hv, he, ha⟩, b, hb, hexp, hlvl⟩

/-- C7: for an existing profile with `shots > 0`, `recordHit` adds one to
`hits` and adds 70 to experience when the accuracy with the new hit count is
strictly above one half, and 50 otherwise; with 10 shots a new hit count of 5
gains 50 and a new hit count of 6 gains 70. -/
theorem recordHit_experience_gain (store : LearningData) (botId : String) (bot : Profile)
    (h : store botId = some bot) (hs : 0 < bot.stats.shots) :
    ∃ bot', recordHit store botId botId = some bot' ∧
      bot'.stats.hits = bot.stats.hits + 1 ∧
      ((1 : ℚ) / 2 < ((bot.stats.hits + 1 : ℕ) : ℚ) / (bot.stats.shots : ℚ) →
        bot'.experience = bot.experience + 70) ∧
      (¬ ((1 : ℚ) / 2 < ((bot.stats.hits + 1 : ℕ) : ℚ) / (bot.stats.shots : ℚ)) →
        bot'.experience = bot.experience + 50) ∧
      (bot.stats.shots = 10 → bot.stats.hits + 1 = 5 → bot'.experience = bot.experience + 50) ∧
      (bot.stats.shots = 10 → bot.stats.hits + 1 = 6 → bot'.experience = bot.experience + 70) := by
  obtain ⟨b, hb, hh, _, hhi, hlo⟩ := recordHit_gain store botId bot h hs
  refine ⟨b, hb, hh, hhi, hlo, fun h10 h5 => hlo ?_, fun h10 h6 => hhi ?_⟩
  · rw [h10, h5]; norm_num
  · rw [h10, h6]; norm_num

/-- Witness of C7 on `veteran` (10 shots, 5 hits before the call). -/
theorem recordHit_experience_gain_witness :
    (veteranStore "bot_0" = some veteran ∧ 0 < veteran.stats.shots) ∧
    ∃ bot', recordHit veteranStore "bot_0" "bot_0" = some bot' ∧
      bot'.stats.hits = 6 ∧ bot'.experience = 1270 := by
  have hv : veteranStore "bot_0" = some veteran := by simp [veteranStore]
  have hs : 0 < veteran.stats.shots := by simp [veteran]
  obtain ⟨b, hb, hh, _, _, _, h6⟩ := recordHit_experience_gain veteranStore "bot_0" veteran hv hs
  refine ⟨⟨hv, hs⟩, b, hb, ?_, ?_⟩
  · rw [hh]; simp [veteran]
  · rw [h6 (by simp [veteran]) (by simp [veteran])]; norm_num [veteran]

/-- C8: for an existing profile with kill count `k`, `recordKill` sets kills to
`k + 1` and adds 150 to experience when `k + 1` is a multiple of 5 and 100
otherwise; over `n` successive kills the experience grows by `100 * n` plus 50
for every multiple of 5 that the kill count passes. -/
theorem recordKill_experience_gain (store : LearningData) (botId : String) (bot : Profile)
    (h : store botId = some bot) :
    (∃ bot', recordKill store botId botId = some bot' ∧
      bot'.stats.kills = bot.stats.kills + 1 ∧
      ((bot.stats.kills + 1) % 5 = 0 → bot'.experience = bot.experience + 150) ∧
      ((bot.stats.kills + 1) % 5 ≠ 0 → bot'.experience = bot.experience + 100)) ∧
    (∀ n : ℕ, ∃ bot', ((fun s => recordKill s botId)^[n] store) botId = some bot' ∧
      bot'.stats.kills = bot.stats.kills + n ∧
      bot'.experience + 50 * ((bot.stats.kills / 5 : ℕ) : ℚ) =
        bot.experience + 100 * (n : ℚ) + 50 * (((bot.stats.kills + n) / 5 : ℕ) : ℚ)) :=
  ⟨recordKill_step store botId bot h, fun n => recordKill_iterate botId n store bot h⟩

/-- Witness of C8 on `veteran` (4 kills before the call). -/
theorem recordKill_experience_gain_witness :
    veteranStore "bot_0" = some veteran ∧
    ∃ bot', recordKill veteranStore "bot_0" "bot_0" = some bot' ∧
      bot'.stats.kills = 5 ∧ bot'.experience = 1350 := by
  have hv : veteranStore "bot_0" = some veteran := by simp [veteranStore]
  obtain ⟨⟨b, hb, hk, h5, _⟩, _⟩ := recordKill_experience_gain veteranStore "bot_0" veteran hv
  refine ⟨hv, b, hb, ?_, ?_⟩
  · rw [hk]; simp [veteran]
  · rw [h5 (by simp [veteran])]; norm_num [veteran]

/-- C9 (counterexample): on `veteran` (level 5, four deaths) `recordDeath`
brings deaths to 5 and survival to the level-derived value plus `0.1`, and one
later `updateExperience(id, 1)` puts survival back to the level-derived value:
the bump is erased. -/
theorem survival_bump_erased :
    ∃ p p', recordDeath veteranStore "bot_0" "bot_0" = some p ∧
      p.stats.deaths = 5 ∧ p.level = 5 ∧
      p.skills.survival = levelSurvival 5 + 1 / 10 ∧
      updateExperience (recordDeath veteranStore "bot_0") "bot_0" 1 "bot_0" = some p' ∧
      p'.level = 5 ∧
      p'.skills.survival = levelSurvival 5 ∧
      p'.skills.survival < min 1 (levelSurvival 5 + 1 / 10) := by
  have hv : veteranStore "bot_0" = some veteran := by simp [veteranStore]
  have hd := recordDeath_some veteranStore "bot_0" veteran hv
  refine ⟨_, _, hd, ?_, ?_, ?_, updateExperience_some _ _ _ _ hd, ?_, ?_, ?_⟩
  all_goals simp [veteran, Profile.updateExperience, levelSurvival]
  all_goals norm_num

/-- C9 (amended): for an existing profile, a `recordDeath` that brings deaths
to a multiple of 5 leaves survival at `min(1, level-derived survival + 0.1)`,
where the level is the one recomputed after the 10 experience of the death. -/
theorem recordDeath_survival_bump (store : LearningData) (botId : String) (bot : Profile)
    (h : store botId = some bot) (h5 : (bot.stats.deaths + 1) % 5 = 0) :
    ∃ bot', recordDeath store botId botId = some bot' ∧
      bot'.stats.deaths = bot.stats.deaths + 1 ∧
      bot'.level = ⌊(bot.experience + 10) / 300⌋ + 1 ∧
      bot'.skills.survival = min 1 (levelSurvival bot'.level + 1 / 10) := by
  refine ⟨_, recordDeath_some store botId bot h, ?_⟩
  simp only [h5, if_true]
  exact ⟨rfl, rfl, rfl⟩

/-- Witness of C9 (amended) on `veteran` (4 deaths before the call). -/
theorem recordDeath_survival_bump_witness :
    (veteranStore "bot_0" = some veteran ∧ (veteran.stats.deaths + 1) % 5 = 0) ∧
    ∃ bot', recordDeath veteranStore "bot_0" "bot_0" = some bot' ∧
      bot'.stats.deaths = veteran.stats.deaths + 1 ∧
      bot'.skills.survival = min 1 (levelSurvival bot'.level + 1 / 10) := by
  have hv : veteranStore "bot_0" = some veteran := by simp [veteranStore]
  have h5 : (veteran.stats.deaths + 1) % 5 = 0 := by simp [veteran]
  obtain ⟨b, hb, hd, _, hsv⟩ := recordDeath_survival_bump veteranStore "bot_0" veteran hv h5
  exact ⟨⟨hv, h5⟩, b, hb, hd, hsv⟩

/-! ## Claims about the tick -/

/-- C1 (code defect): a bot inside the world bounds and clear of every solid
tile ends a tick at `x = -1/2`, outside `[0, MAP_SIZE - PLAYER_SIZE]`: the
random nudge of `updateBotBehavior` is applied after the clamp. -/
theorem tick_bot_leaves_world :
    inBounds { id := "bot_0", x := 5, y := 40, isBot := true } ∧
    isCollidingWithMap cornerEnv.decal2D { id := "bot_0", x := 5, y := 40, isBot := true }
      = false ∧
    (∀ n, 0 ≤ cornerEnv.random n ∧ cornerEnv.random n < 1) ∧
    (tick cornerEnv 31 cornerWorld).map (fun w => w.players) =
      .ok [{ id := "bot_0", x := -1 / 2, y := 59 / 2, isBot := true }] ∧
    ¬ inBounds { id := "bot_0", x := -1 / 2, y := 59 / 2, isBot := true } := by
  refine ⟨?_, ?_, ?_, ?_, ?_⟩
  · norm_num [inBounds, MAP_SIZE, PLAYER_SIZE]
  · simp [isCollidingWithMap, isColliding, cornerEnv, Decal.tile, Decal.cols, List.range,
      List.range.loop, PLAYER_SIZE, TILE_SIZE]
    norm_num
  · intro n
    simp only [cornerEnv]
    split_ifs <;> norm_num
  · simp [tick, tickPlayers, sweepSnowballs, stepPlayer, updateBotBehavior, botDecide, botWander,
      findNearestTarget, findNearestBot, cornerWorld, cornerEnv, defaultBotData,
      isCollidingWithMap, isColliding, Decal.tile, Decal.cols, List.range, List.range.loop,
      MAP_SIZE, PLAYER_SIZE, SPEED, TILE_SIZE, Except.map, bind, Except.bind, pure, Except.pure]
    norm_num
  · norm_num [inBounds, MAP_SIZE, PLAYER_SIZE]

theorem tile_eq_true_iff (decal2D : Decal) (row col : ℕ) :
    decal2D.tile row col = true ↔ decal2D.solid row col := by
  unfold Decal.tile Decal.solid
  cases hrow : decal2D[row]? with
  | none => simp
  | some r =>
    simp only [Option.some.injEq, exists_eq_left']
    rw [List.getD_eq_getElem?_getD]
    cases hcol : r[col]? with
    | none => simp
    | some b => simp

theorem isColliding_iff_boxOverlap (p : Player) (row col : ℕ) :
    isColliding
        { x := p.x, y := p.y, w := PLAYER_SIZE, h := PLAYER_SIZE }
        { x := (col : ℚ) * TILE_SIZE, y := (row : ℚ) * TILE_SIZE, w := TILE_SIZE,
          h := TILE_SIZE } = true ↔ boxOverlap p row col := by
  simp only [isColliding, boxOverlap, Bool.and_eq_true, decide_eq_true_eq]
  constructor
  · rintro ⟨⟨⟨h1, h2⟩, h3⟩, h4⟩
    refine ⟨by linarith, by linarith, by linarith, by linarith⟩
  · rintro ⟨h1, h2, h3, h4⟩
    refine ⟨⟨⟨by linarith, by linarith⟩, by linarith⟩, by linarith⟩

theorem isCollidingWithMap_iff (decal2D : Decal) (p : Player) :
    isCollidingWithMap decal2D p = true ↔ overlapsScannedSolid decal2D p := by
  unfold isCollidingWithMap overlapsScannedSolid
  simp only [List.any_eq_true, List.mem_range, Bool.and_eq_true]
  constructor
  · rintro ⟨row, _, col, hcol, htile, hov⟩
    exact ⟨row, col, hcol, (tile_eq_true_iff decal2D row col).mp htile,
      (isColliding_iff_boxOverlap p row col).mp hov⟩
  · rintro ⟨row, col, hcol, hsolid, hov⟩
    obtain ⟨r, hr, _⟩ := hsolid
    exact ⟨row, getElem?_lt_of_eq_some _ _ _ hr, col, hcol,
      (tile_eq_true_iff decal2D row col).mpr ⟨r, hr, by assumption⟩,
      (isColliding_iff_boxOverlap p row col).mpr hov⟩

theorem overlapsSolid_iff_of_rectangular (decal2D : Decal) (p : Player)
    (hrect : decal2D.rectangular) :
    overlapsSolid decal2D p ↔ overlapsScannedSolid decal2D p := by
  constructor
  · rintro ⟨row, col, hsolid, hov⟩
    refine ⟨row, col, ?_, hsolid, hov⟩
    obtain ⟨r, hr, hc⟩ := hsolid
    rw [← hrect r (List.getElem?_mem hr)]
    exact getElem?_lt_of_eq_some _ _ _ hc
  · rintro ⟨row, col, _, hsolid, hov⟩
    exact ⟨row, col, hsolid, hov⟩

theorem tick_wall : tick arenaEnv 31 wallWorld = .ok wallWorld := by
  simp [tick, tickPlayers, sweepSnowballs, stepPlayer, humanStep, applyInputs, wallWorld,
    arenaEnv, allFalse, isCollidingWithMap, isColliding, Decal.tile, Decal.cols, List.range,
    List.range.loop, MAP_SIZE, PLAYER_SIZE, SPEED, TILE_SIZE, bind, Except.bind, pure,
    Except.pure]
  norm_num

theorem tick_ragged : tick raggedEnv 31 raggedWorld = .ok raggedAfter := by
  simp [tick, tickPlayers, sweepSnowballs, stepPlayer, humanStep, applyInputs, raggedWorld,
    raggedAfter, raggedEnv, allFalse, isCollidingWithMap, isColliding, Decal.tile, Decal.cols,
    List.range, List.range.loop, MAP_SIZE, PLAYER_SIZE, SPEED, TILE_SIZE, bind, Except.bind,
    pure, Except.pure]
  norm_num

/-- C2 (counterexample): on a grid whose second row is longer than its first,
the human `a` moves left from `(50, 40)` to `(40, 40)`, where its bounding box
overlaps the solid tile of row 1, column 1; no snowball strikes it, and after
the tick it is at `(40, 40)`, not at its pre-tick position: the scan of
`isCollidingWithMap` stops at the length of the first row. -/
theorem tick_ragged_grid_no_rollback :
    raggedWorld.players[0]? = some { id := "a", x := 50, y := 40, isBot := false } ∧
    raggedWorld.inputsMap "a" = some { allFalse with left := true } ∧
    overlapsSolid raggedEnv.decal2D
      (applyInputs { allFalse with left := true }
        { id := "a", x := 50, y := 40, isBot := false }) ∧
    tick raggedEnv 31 raggedWorld = .ok raggedAfter ∧
    raggedAfter.hitLog = [] ∧
    ∃ p, raggedAfter.players[0]? = some p ∧ p.x = 40 ∧ p.x ≠ 50 := by
  refine ⟨by simp [raggedWorld], by simp [raggedWorld], ?_, tick_ragged, rfl,
    { id := "a", x := 40, y := 40, isBot := false }, by simp [raggedAfter], rfl, by norm_num⟩
  refine ⟨1, 1, ⟨[false, true], by simp [raggedEnv], by simp⟩, ?_⟩
  norm_num [boxOverlap, applyInputs, allFalse, SPEED, PLAYER_SIZE, TILE_SIZE]

/-- C2 (amended): for a human-controlled entity that no snowball strikes in the
tick and whose input state is `inp`: when the position reached by applying the
active directions overlaps a solid decal tile in a column below the length of
the first row of the grid, both coordinates after the tick equal their values
before it; when it overlaps none of these, the entity ends at that position.
On a rectangular grid these are all the solid decal tiles.  For an entity
inside the world bounds the position reached is the one the specification
describes (each active direction moves `SPEED` along its axis, clamped to the
bounds). -/
theorem tick_human_rollback_or_move (env : Env) (delta : ℚ) (w w' : World) (i : ℕ)
    (p : Player) (inp : Inputs) (ht : tick env delta w = .ok w')
    (hp : w.players[i]? = some p) (hb : p.isBot = false)
    (hin : w.inputsMap p.id = some inp) (hmiss : ∀ h ∈ w'.hitLog, h.2 ≠ i) :
    ∃ p', w'.players[i]? = some p' ∧
      (overlapsScannedSolid env.decal2D (applyInputs inp p) →
        p'.x = p.x ∧ p'.y = p.y) ∧
      (¬ overlapsScannedSolid env.decal2D (applyInputs inp p) →
        p'.x = (applyInputs inp p).x ∧ p'.y = (applyInputs inp p).y) ∧
      (env.decal2D.rectangular →
        (overlapsSolid env.decal2D (applyInputs inp p) → p'.x = p.x ∧ p'.y = p.y) ∧
        (¬ overlapsSolid env.decal2D (applyInputs inp p) →
          p'.x = (applyInputs inp p).x ∧ p'.y = (applyInputs inp p).y)) ∧
      (inBounds p → applyInputs inp p = specMoved inp p) := by
  have hroll : overlapsScannedSolid env.decal2D (applyInputs inp p) →
      (humanStep env.decal2D inp p).x = p.x ∧ (humanStep env.decal2D inp p).y = p.y := by
    intro hov
    have hc := (isCollidingWithMap_iff env.decal2D (applyInputs inp p)).mpr hov
    simp [humanStep, hc]
  have hmove : ¬ overlapsScannedSolid env.decal2D (applyInputs inp p) →
      (humanStep env.decal2D inp p).x = (applyInputs inp p).x ∧
        (humanStep env.decal2D inp p).y = (applyInputs inp p).y := by
    intro hov
    have hc : isCollidingWithMap env.decal2D (applyInputs inp p) = false := by
      cases hcc : isCollidingWithMap env.decal2D (applyInputs inp p) with
      | false => rfl
      | true => exact absurd ((isCollidingWithMap_iff _ _).mp hcc) hov
    simp [humanStep, hc]
  refine ⟨humanStep env.decal2D inp p,
    tick_human_core env delta w w' i p inp ht hp hb hin hmiss, hroll, hmove, ?_,
    applyInputs_eq_specMoved inp p⟩
  intro hrect
  have hiff := overlapsSolid_iff_of_rectangular env.decal2D (applyInputs inp p) hrect
  exact ⟨fun h => hroll (hiff.mp h), fun h => hmove (fun hs => h (hiff.mpr hs))⟩

/-- Witness of C2 (amended), on both branches.  In `wallWorld` the human `a`
holds the left and the down key, the position reached `(30, 20)` overlaps the
solid tile of row 0, column 0, and `a` is back at `(40, 10)` after the tick.
In `arena` the human `a` (index 1) holds the right key, overlaps no solid tile
at `(410, 400)` and ends there. -/
theorem tick_human_rollback_or_move_witness :
    ((tick arenaEnv 31 wallWorld = .ok wallWorld ∧
        wallWorld.players[0]? = some { id := "a", x := 40, y := 10, isBot := false } ∧
        wallWorld.inputsMap "a" = some { allFalse with down := true, left := true } ∧
        (∀ h ∈ wallWorld.hitLog, h.2 ≠ 0) ∧
        arenaEnv.decal2D.rectangular ∧
        (applyInputs { allFalse with down := true, left := true }
          { id := "a", x := 40, y := 10, isBot := false }).x = 30 ∧
        (applyInputs { allFalse with down := true, left := true }
          { id := "a", x := 40, y := 10, isBot := false }).y = 20 ∧
        overlapsSolid arenaEnv.decal2D
          (applyInputs { allFalse with down := true, left := true }
            { id := "a", x := 40, y := 10, isBot := false })) ∧
      ∃ p', wallWorld.players[0]? = some p' ∧ p'.x = 40 ∧ p'.y = 10) ∧
    ((tick arenaEnv 31 arena = .ok arenaAfter ∧
        arena.players[1]? = some { id := "a", x := 400, y := 400, isBot := false } ∧
        arena.inputsMap "a" = some { allFalse with right := true } ∧
        (∀ h ∈ arenaAfter.hitLog, h.2 ≠ 1) ∧
        ¬ overlapsSolid arenaEnv.decal2D
          (applyInputs { allFalse with right := true }
            { id := "a", x := 400, y := 400, isBot := false })) ∧
      ∃ p', arenaAfter.players[1]? = some p' ∧ p'.x = 410 ∧ p'.y = 400) := by
  have hrect : arenaEnv.decal2D.rectangular := by
    intro r hr
    simp [arenaEnv] at hr
    subst hr
    rfl
  constructor
  · have hp : wallWorld.players[0]? = some { id := "a", x := 40, y := 10, isBot := false } := by
      simp [wallWorld]
    have hin : wallWorld.inputsMap "a"
        = some { allFalse with down := true, left := true } := by simp [wallWorld]
    have hmiss : ∀ h ∈ wallWorld.hitLog, h.2 ≠ 0 := by simp [wallWorld]
    have hx : (applyInputs { allFalse with down := true, left := true }
        { id := "a", x := 40, y := 10, isBot := false }).x = 30 := by
      norm_num [applyInputs, allFalse, SPEED, MAP_SIZE, PLAYER_SIZE]
    have hy : (applyInputs { allFalse with down := true, left := true }
        { id := "a", x := 40, y := 10, isBot := false }).y = 20 := by
      norm_num [applyInputs, allFalse, SPEED, MAP_SIZE, PLAYER_SIZE]
    have hov : overlapsSolid arenaEnv.decal2D
        (applyInputs { allFalse with down := true, left := true }
          { id := "a", x := 40, y := 10, isBot := false }) := by
      refine ⟨0, 0, ⟨[true], by simp [arenaEnv], by simp⟩, ?_⟩
      unfold boxOverlap
      rw [hx, hy]
      norm_num [PLAYER_SIZE, TILE_SIZE]
    obtain ⟨p', hp', _, _, hrectangular, _⟩ :=
      tick_human_rollback_or_move arenaEnv 31 wallWorld wallWorld 0
        { id := "a", x := 40, y := 10, isBot := false }
        { allFalse with down := true, left := true } tick_wall hp rfl hin hmiss
    obtain ⟨hx', hy'⟩ := (hrectangular hrect).1 hov
    exact ⟨⟨tick_wall, hp, hin, hmiss, hrect, hx, hy, hov⟩, p', hp', hx', hy'⟩
  · have hp : arena.players[1]? = some { id := "a", x := 400, y := 400, isBot := false } := by
      simp [arena]
    have hin : arena.inputsMap "a" = some { allFalse with right := true } := by simp [arena]
    have hmiss : ∀ h ∈ arenaAfter.hitLog, h.2 ≠ 1 := by simp [arenaAfter]
    have hx : (applyInputs { allFalse with right := true }
        { id := "a", x := 400, y := 400, isBot := false }).x = 410 := by
      norm_num [applyInputs, allFalse, SPEED, MAP_SIZE, PLAYER_SIZE]
    have hy : (applyInputs { allFalse with right := true }
        { id := "a", x := 400, y := 400, isBot := false }).y = 400 := by
      norm_num [applyInputs, allFalse, SPEED, MAP_SIZE, PLAYER_SIZE]
    have hfree : ¬ overlapsSolid arenaEnv.decal2D
        (applyInputs { allFalse with right := true }
          { id := "a", x := 400, y := 400, isBot := false }) := by
      rintro ⟨row, col, ⟨r, hr, hc⟩, hov⟩
      have hrow : row = 0 := by
        have := getElem?_lt_of_eq_some _ _ _ hr
        simp [arenaEnv] at this
        exact this
      subst hrow
      simp [arenaEnv] at hr
      subst hr
      have hcol : col = 0 := by
        have := getElem?_lt_of_eq_some _ _ _ hc
        simpa using this
      subst hcol
      unfold boxOverlap at hov
      rw [hx, hy] at hov
      norm_num [PLAYER_SIZE, TILE_SIZE] at hov
    obtain ⟨p', hp', _, _, hrectangular, _⟩ :=
      tick_human_rollback_or_move arenaEnv 31 arena arenaAfter 1
        { id := "a", x := 400, y := 400, isBot := false } { allFalse with right := true }
        tick_arena hp rfl hin hmiss
    obtain ⟨hx', hy'⟩ := (hrectangular hrect).2 hfree
    exact ⟨⟨tick_arena, hp, hin, hmiss, hfree⟩, p', hp', by rw [hx', hx], by rw [hy', hy]⟩

/-- C5: a snowball with time-to-live `t` in the list before a tick with
`delta > 0`, which strikes no entity in that tick, is processed into the same
snowball advanced one step with time-to-live exactly `t - delta`; it is in the
list after the tick when `t - delta > 0` and not in it when `t - delta <= 0`;
no snowball in the list after the tick has time-to-live `<= 0`. -/
theorem tick_snowball_time_to_live (env : Env) (delta : ℚ) (w w' : World) (j : ℕ)
    (s : Snowball) (hd : 0 < delta) (ht : tick env delta w = .ok w')
    (hs : w.snowballs[j]? = some s) (hmiss : ∀ h ∈ w'.hitLog, h.1 ≠ j) :
    ∃ swept : List Snowball,
      swept[j]? = some (advance env.math delta s) ∧
      w'.snowballs = swept.filter (fun b => decide (b.timeLeft > 0)) ∧
      (advance env.math delta s).timeLeft = s.timeLeft - delta ∧
      (advance env.math delta s).timeLeft < s.timeLeft ∧
      (0 < s.timeLeft - delta → advance env.math delta s ∈ w'.snowballs) ∧
      (s.timeLeft - delta ≤ 0 → advance env.math delta s ∉ w'.snowballs) ∧
      ∀ b ∈ w'.snowballs, 0 < b.timeLeft := by
  obtain ⟨w1, h1, hw'⟩ := tick_ok env delta w w' ht
  subst hw'
  obtain ⟨f1, _⟩ := tickPlayers_frame env delta { w with hitLog := [] } _ w1 h1
  obtain ⟨extra, hex⟩ := f1.balls
  have hlt : j < w.snowballs.length := getElem?_lt_of_eq_some _ _ _ hs
  have hs1 : w1.snowballs[j]? = some s := by
    rw [hex, List.getElem?_append_left hlt]; exact hs
  have hlt1 : j < w1.snowballs.length := getElem?_lt_of_eq_some _ _ _ hs1
  have hsw := sweepSnowballs_nohit env delta w1 j w1.snowballs.length s hs1 hlt1 hmiss
  refine ⟨(sweepSnowballs env delta w1 w1.snowballs.length).snowballs, hsw, rfl, rfl, ?_, ?_,
    ?_, ?_⟩
  · simp only [advance]; linarith
  · intro hpos
    apply List.mem_filter.mpr
    exact ⟨List.getElem?_mem hsw, by simpa [advance] using hpos⟩
  · intro hneg hmem
    have := (List.mem_filter.mp hmem).2
    simp only [advance, decide_eq_true_eq] at this
    linarith
  · intro b hb
    have := (List.mem_filter.mp hb).2
    simpa using this

/-- Witness of C5: in `solo` the second snowball (time-to-live 500) survives a
tick of 31 ms with time-to-live 469. -/
theorem tick_snowball_time_to_live_witness :
    ((0 : ℚ) < 31 ∧ tick arenaEnv 31 solo = .ok soloAfter ∧
      solo.snowballs[1]? =
        some { angle := 0, x := 1000, y := 1000, timeLeft := 500, playerId := "a" } ∧
      ∀ h ∈ soloAfter.hitLog, h.1 ≠ 1) ∧
    advance arenaEnv.math 31
      { angle := 0, x := 1000, y := 1000, timeLeft := 500, playerId := "a" } ∈
        soloAfter.snowballs := by
  have hd : (0 : ℚ) < 31 := by norm_num
  have hs : solo.snowballs[1]? =
      some { angle := 0, x := 1000, y := 1000, timeLeft := 500, playerId := "a" } := by
    simp [solo]
  have hmiss : ∀ h ∈ soloAfter.hitLog, h.1 ≠ 1 := by simp [soloAfter]
  obtain ⟨_, _, _, _, _, hin, _, _⟩ :=
    tick_snowball_time_to_live arenaEnv 31 solo soloAfter 1
      { angle := 0, x := 1000, y := 1000, timeLeft := 500, playerId := "a" } hd tick_solo hs hmiss
  exact ⟨⟨hd, tick_solo, hs, hmiss⟩, hin (by norm_num)⟩

/-- C6 (counterexample): in `arena` the snowball of `a` reaches the body centre
of `b`; with both random draws equal to `0` the tick relocates `b` to
`(0, 0)`, where its bounding box overlaps the solid decal tile of row 0,
column 0. -/
theorem tick_relocation_onto_solid_tile :
    (∀ n, 0 ≤ arenaEnv.random n ∧ arenaEnv.random n < 1) ∧
    strikes arenaEnv.math
      (advance arenaEnv.math 31
        { angle := 0, x := 205, y := 216, timeLeft := 500, playerId := "a" })
      { id := "b", x := 200, y := 200, isBot := false } = true ∧
    ∃ w' victim, tick arenaEnv 31 arena = .ok w' ∧ w'.players[0]? = some victim ∧
      victim.id = "b" ∧ victim.x = 0 ∧ victim.y = 0 ∧
      isCollidingWithMap arenaEnv.decal2D victim = true := by
  refine ⟨fun n => by norm_num [arenaEnv], ?_, arenaAfter,
    { id := "b", x := 0, y := 0, isBot := false }, tick_arena, by simp [arenaAfter], rfl, rfl,
    rfl, ?_⟩
  · simp [strikes, advance, calculateDistance, arenaEnv, flatMath, PLAYER_SIZE, SNOWBALL_SPEED]
    norm_num
  · simp [isCollidingWithMap, isColliding, arenaEnv, Decal.tile, Decal.cols, List.range,
      List.range.loop, PLAYER_SIZE, TILE_SIZE]

/-- C6 (amended): when the advanced position of snowball `j` is within
`PLAYER_SIZE / 2` of the body centre of some entity other than its owner, the
tick completes, the snowball is not in the list after the tick, the first such
entity in registry order and no other is relocated on account of it, and both
coordinates of the new position lie in `[0, MAP_SIZE - PLAYER_SIZE]`, for every
outcome of the random draws. -/
theorem tick_strike_relocates_first (env : Env) (delta : ℚ) (w w1 : World) (j : ℕ)
    (s : Snowball) (q : Player) (hr : ∀ n, 0 ≤ env.random n ∧ env.random n < 1)
    (h1 : tickPlayers env delta { w with hitLog := [] } w.players.length = .ok w1)
    (hs : w1.snowballs[j]? = some s)
    (hq : q ∈ (sweepSnowballs env delta w1 j).players)
    (hqs : strikes env.math (advance env.math delta s) q = true) :
    ∃ (w' : World) (k : ℕ) (victim : Player),
      tick env delta w = .ok w' ∧
      w'.snowballs =
        ((sweepSnowballs env delta w1 w1.snowballs.length).snowballs.eraseIdx j).filter
          (fun b => decide (b.timeLeft > 0)) ∧
      (sweepSnowballs env delta w1 j).players[k]? = some victim ∧
      strikes env.math (advance env.math delta s) victim = true ∧
      (∀ (k' : ℕ) (q' : Player), k' < k →
        (sweepSnowballs env delta w1 j).players[k']? = some q' →
          strikes env.math (advance env.math delta s) q' = false) ∧
      (sweepSnowballs env delta w1 (j + 1)).players =
        (sweepSnowballs env delta w1 j).players.set k
          { victim with
            x := getRandomPosition (env.random (sweepSnowballs env delta w1 j).draws)
            y := getRandomPosition (env.random ((sweepSnowballs env delta w1 j).draws + 1)) } ∧
      inBounds
        { victim with
          x := getRandomPosition (env.random (sweepSnowballs env delta w1 j).draws)
          y := getRandomPosition (env.random ((sweepSnowballs env delta w1 j).draws + 1)) } := by
  have hsj : (sweepSnowballs env delta w1 j).snowballs[j]? = some s := by
    rw [sweepSnowballs_before env delta w1 j j le_rfl]; exact hs
  have hlt : j < w1.snowballs.length := getElem?_lt_of_eq_some _ _ _ hs
  have hltj : j < (sweepSnowballs env delta w1 j).snowballs.length :=
    getElem?_lt_of_eq_some _ _ _ hsj
  obtain ⟨k, victim, hf⟩ := firstStruck_exists env.math (advance env.math delta s) _ q hq hqs
  obtain ⟨hk, hstr, hfirst⟩ := firstStruck_some env.math (advance env.math delta s) _ k victim hf
  have hstep : sweepSnowballs env delta w1 (j + 1) = _ := sweepSnowballs_succ env delta w1 j
  rcases stepSnowball_cases env delta (sweepSnowballs env delta w1 j) j with
    ⟨h0, _⟩ | ⟨s', hs', hnone, _⟩ | ⟨s', k', v', hs', hsome, heq⟩
  · rw [h0] at hsj; cases hsj
  · rw [hsj] at hs'; cases hs'
    rw [hf] at hnone; cases hnone
  · rw [hsj] at hs'; cases hs'
    rw [hf] at hsome
    simp only [Option.some.injEq, Prod.mk.injEq] at hsome
    obtain ⟨hk', hv'⟩ := hsome
    subst hk'
    subst hv'
    rw [heq] at hstep
    have hball : (sweepSnowballs env delta w1 w1.snowballs.length).snowballs[j]? =
        some { advance env.math delta s with timeLeft := -1 } := by
      rw [sweepSnowballs_after env delta w1 j _ hlt, hstep]
      simp [List.getElem?_set_self hltj]
    refine ⟨{ sweepSnowballs env delta w1 w1.snowballs.length with
        snowballs := (sweepSnowballs env delta w1 w1.snowballs.length).snowballs.filter
          fun b => decide (b.timeLeft > 0) }, k, victim, ?_, ?_, hk, hstr, hfirst, ?_, ?_⟩
    · unfold tick
      rw [h1]
      rfl
    · exact filter_eraseIdx _ _ j _ hball (by simp)
    · rw [hstep]
    · obtain ⟨hx0, hx1⟩ := getRandomPosition_bounds _ (hr (sweepSnowballs env delta w1 j).draws).1
        (hr (sweepSnowballs env delta w1 j).draws).2
      obtain ⟨hy0, hy1⟩ := getRandomPosition_bounds _
        (hr ((sweepSnowballs env delta w1 j).draws + 1)).1
        (hr ((sweepSnowballs env delta w1 j).draws + 1)).2
      exact ⟨hx0, hx1, hy0, hy1⟩

/-- Witness of C6 (amended): in `arena` the snowball of `a` strikes `b`, the
first entity of the registry. -/
theorem tick_strike_relocates_first_witness :
    ((∀ n, 0 ≤ arenaEnv.random n ∧ arenaEnv.random n < 1) ∧
      tickPlayers arenaEnv 31 { arena with hitLog := [] } arena.players.length
        = .ok arenaMoved ∧
      arenaMoved.snowballs[0]? =
        some { angle := 0, x := 205, y := 216, timeLeft := 500, playerId := "a" } ∧
      ({ id := "b", x := 200, y := 200, isBot := false } : Player) ∈
        (sweepSnowballs arenaEnv 31 arenaMoved 0).players ∧
      strikes arenaEnv.math
        (advance arenaEnv.math 31
          { angle := 0, x := 205, y := 216, timeLeft := 500, playerId := "a" })
        { id := "b", x := 200, y := 200, isBot := false } = true) ∧
    ∃ (w' : World) (k : ℕ) (victim : Player), tick arenaEnv 31 arena = .ok w' ∧
      (sweepSnowballs arenaEnv 31 arenaMoved 0).players[k]? = some victim ∧
      strikes arenaEnv.math
        (advance arenaEnv.math 31
          { angle := 0, x := 205, y := 216, timeLeft := 500, playerId := "a" }) victim = true := by
  have hr : ∀ n, 0 ≤ arenaEnv.random n ∧ arenaEnv.random n < 1 := fun n => by
    norm_num [arenaEnv]
  have hs : arenaMoved.snowballs[0]? =
      some { angle := 0, x := 205, y := 216, timeLeft := 500, playerId := "a" } := by
    simp [arenaMoved]
  have hq : ({ id := "b", x := 200, y := 200, isBot := false } : Player) ∈
      (sweepSnowballs arenaEnv 31 arenaMoved 0).players := by
    simp [sweepSnowballs, arenaMoved]
  have hqs : strikes arenaEnv.math
      (advance arenaEnv.math 31
        { angle := 0, x := 205, y := 216, timeLeft := 500, playerId := "a" })
      { id := "b", x := 200, y := 200, isBot := false } = true := by
    simp [strikes, advance, calculateDistance, arenaEnv, flatMath, PLAYER_SIZE, SNOWBALL_SPEED]
    norm_num
  obtain ⟨w', k, victim, ht, _, hk, hstr, _⟩ :=
    tick_strike_relocates_first arenaEnv 31 arena arenaMoved 0
      { angle := 0, x := 205, y := 216, timeLeft := 500, playerId := "a" }
      { id := "b", x := 200, y := 200, isBot := false } hr tickPlayers_arena hs hq hqs
  exact ⟨⟨hr, tickPlayers_arena, hs, hq, hqs⟩, w', k, victim, ht, hk, hstr⟩

/-- C10 (counterexample): in `orphanWorld` the human `a` has no entry in the
input map; the tick raises a `TypeError` at `a` and returns no state, so `b`,
who holds the right key, is not moved. -/
theorem tick_missing_input_raises :
    orphanWorld.inputsMap "a" = none ∧
    tick arenaEnv 31 orphanWorld = .error "TypeError: cannot read properties of undefined" := by
  refine ⟨by simp [orphanWorld], ?_⟩
  simp [tick, tickPlayers, stepPlayer, orphanWorld, List.range, List.range.loop, bind,
    Except.bind, throw, throwThe, MonadExceptOf.throw]

/-- C10 (amended): when every human-controlled entity of the registry has an
input state, the tick completes without raising and keeps the registry length;
every human no snowball strikes ends where the move of its input state puts
it, and one whose input state is all-false keeps its position. -/
theorem tick_completes_with_inputs (env : Env) (delta : ℚ) (w : World)
    (hall : ∀ p ∈ w.players, p.isBot = false → (w.inputsMap p.id).isSome = true) :
    ∃ w', tick env delta w = .ok w' ∧
      w'.players.length = w.players.length ∧
      ∀ (i : ℕ) (p : Player) (inp : Inputs), w.players[i]? = some p → p.isBot = false →
        w.inputsMap p.id = some inp → (∀ h ∈ w'.hitLog, h.2 ≠ i) →
          w'.players[i]? = some (humanStep env.decal2D inp p) ∧
            (inp = allFalse → w'.players[i]? = some p) := by
  obtain ⟨w', ht⟩ := tick_total env delta w hall
  refine ⟨w', ht, tick_players_length env delta w w' ht, ?_⟩
  intro i p inp hp hb hin hmiss
  have hcore := tick_human_core env delta w w' i p inp ht hp hb hin hmiss
  refine ⟨hcore, fun hinp => ?_⟩
  rw [hcore, hinp, humanStep_allFalse]

/-- Witness of C10 (amended): in `arena` both humans have an input state. -/
theorem tick_completes_with_inputs_witness :
    (∀ p ∈ arena.players, p.isBot = false → (arena.inputsMap p.id).isSome = true) ∧
    ∃ w', tick arenaEnv 31 arena = .ok w' ∧ w'.players.length = arena.players.length := by
  have hall : ∀ p ∈ arena.players, p.isBot = false → (arena.inputsMap p.id).isSome = true := by
    intro p hp _
    simp only [arena]
    split_ifs <;> rfl
  obtain ⟨w', ht, hlen, _⟩ := tick_completes_with_inputs arenaEnv 31 arena hall
  exact ⟨hall, w', ht, hlen⟩


/-! ## Trajectories -/

theorem fliesOneTick_advance (env : Env) (delta : ℚ) (w : World) (s s1 : Snowball)
    (h : fliesOneTick env delta w s s1) : s1 = advance env.math delta s := by
  obtain ⟨j, w1, w2, hs, h1, ht, hmiss, hsw⟩ := h
  obtain ⟨w1', h1', hw2⟩ := tick_ok env delta w w2 ht
  rw [h1] at h1'
  cases h1'
  subst hw2
  obtain ⟨f1, _⟩ := tickPlayers_frame env delta { w with hitLog := [] } _ w1 h1
  obtain ⟨extra, hex⟩ := f1.balls
  have hlt : j < w.snowballs.length := getElem?_lt_of_eq_some _ _ _ hs
  have hs1 : w1.snowballs[j]? = some s := by
    rw [hex, List.getElem?_append_left hlt]; exact hs
  have hlt1 : j < w1.snowballs.length := getElem?_lt_of_eq_some _ _ _ hs1
  have hadv := sweepSnowballs_nohit env delta w1 j w1.snowballs.length s hs1 hlt1 hmiss
  rw [hadv] at hsw
  cases hsw
  rfl

theorem fliesOneTick_of_tick (env : Env) (delta : ℚ) (w w2 : World) (j : ℕ) (s : Snowball)
    (ht : tick env delta w = .ok w2) (hs : w.snowballs[j]? = some s)
    (hmiss : ∀ h ∈ w2.hitLog, h.1 ≠ j) :
    fliesOneTick env delta w s (advance env.math delta s) := by
  obtain ⟨w1, h1, hw2⟩ := tick_ok env delta w w2 ht
  refine ⟨j, w1, w2, hs, h1, ht, hmiss, ?_⟩
  subst hw2
  obtain ⟨f1, _⟩ := tickPlayers_frame env delta { w with hitLog := [] } _ w1 h1
  obtain ⟨extra, hex⟩ := f1.balls
  have hlt : j < w.snowballs.length := getElem?_lt_of_eq_some _ _ _ hs
  have hs1 : w1.snowballs[j]? = some s := by
    rw [hex, List.getElem?_append_left hlt]; exact hs
  have hlt1 : j < w1.snowballs.length := getElem?_lt_of_eq_some _ _ _ hs1
  exact sweepSnowballs_nohit env delta w1 j w1.snowballs.length s hs1 hlt1 hmiss

theorem flight_solo :
    Flight arenaEnv 31 1
      { angle := 0, x := 1000, y := 1000, timeLeft := 500, playerId := "a" }
      (advance arenaEnv.math 31
        { angle := 0, x := 1000, y := 1000, timeLeft := 500, playerId := "a" }) := by
  refine Flight.step 0 _ _ _ solo (Flight.spawn _) ?_
  exact fliesOneTick_of_tick arenaEnv 31 solo soloAfter 1 _ tick_solo (by simp [solo])
    (by simp [soloAfter])

/-! ## Claims about trajectories and bots -/

/-- C11 (counterexample): a snowball at `(1000, 1000)` with angle `0` flies one
tick of 31 ms and ends at `x = 1011`, a displacement of `SNOWBALL_SPEED`, while
the claimed formula gives `1000 + 11 * (31 / 31.25)`. -/
theorem flight_not_scaled_by_delta :
    ∃ s1, Flight arenaEnv 31 1
        { angle := 0, x := 1000, y := 1000, timeLeft := 500, playerId := "a" } s1 ∧
      s1.x = 1011 ∧
      s1.x ≠ 1000 + 1 * SNOWBALL_SPEED * arenaEnv.math.cos 0 * (31 / (1000 / TICK_RATE)) := by
  refine ⟨_, flight_solo, ?_, ?_⟩
  · norm_num [advance, arenaEnv, flatMath, SNOWBALL_SPEED]
  · norm_num [advance, arenaEnv, flatMath, SNOWBALL_SPEED, TICK_RATE]

/-- C11 (amended): a snowball spawned at `(x0, y0)` with angle `θ` that flies
`k` consecutive ticks of `delta` without striking anything is at
`(x0 + k * s * cos θ, y0 + k * s * sin θ)` with `s = SNOWBALL_SPEED`, whatever
`delta` is; its angle is the one of the spawn and its time-to-live has dropped
by `k * delta`. -/
theorem flight_position (env : Env) (delta : ℚ) (k : ℕ) (s sk : Snowball)
    (h : Flight env delta k s sk) :
    sk.x = s.x + (k : ℚ) * SNOWBALL_SPEED * env.math.cos s.angle ∧
    sk.y = s.y + (k : ℚ) * SNOWBALL_SPEED * env.math.sin s.angle ∧
    sk.angle = s.angle ∧
    sk.timeLeft = s.timeLeft - (k : ℚ) * delta := by
  induction h with
  | spawn s => simp
  | step k s sk s1 w _ hfly ih =>
    obtain ⟨hx, hy, ha, ht⟩ := ih
    have hadv := fliesOneTick_advance env delta w sk s1 hfly
    subst hadv
    simp only [advance, hx, hy, ha, ht]
    push_cast
    refine ⟨by ring, by ring, trivial, by ring⟩

/-- Witness of C11 (amended): the one-tick flight of the second snowball of
`solo`. -/
theorem flight_position_witness :
    Flight arenaEnv 31 1
      { angle := 0, x := 1000, y := 1000, timeLeft := 500, playerId := "a" }
      (advance arenaEnv.math 31
        { angle := 0, x := 1000, y := 1000, timeLeft := 500, playerId := "a" }) ∧
    (advance arenaEnv.math 31
        { angle := 0, x := 1000, y := 1000, timeLeft := 500, playerId := "a" }).x =
      1000 + ((1 : ℕ) : ℚ) * SNOWBALL_SPEED * arenaEnv.math.cos 0 :=
  ⟨flight_solo, (flight_position arenaEnv 31 1 _ _ flight_solo).1⟩


/-! ## Bots -/

theorem botDecide_eq (env : Env) (delta : ℚ) (w : World) (bot : Player) :
    botDecide env delta w bot =
      match chooseTarget env.math w.players bot with
      | none => botWander env delta w.draws bot (botDataOf w bot)
      | some t => botEngage env w.draws bot t (botDataOf w bot) := rfl

theorem updateBotBehavior_player (env : Env) (delta : ℚ) (w : World) (i : ℕ) (bot : Player)
    (hp : w.players[i]? = some bot) :
    (updateBotBehavior env delta w i bot).players[i]? =
      some
        { bot with
          x := if isCollidingWithMap env.decal2D
                { bot with x := clampWorld (botDecide env delta w bot).x
                           y := clampWorld (botDecide env delta w bot).y } then
              clampWorld (botDecide env delta w bot).x -
                (env.random (botDecide env delta w bot).draws * 2 - 1)
            else clampWorld (botDecide env delta w bot).x
          y := if isCollidingWithMap env.decal2D
                { bot with x := clampWorld (botDecide env delta w bot).x
                           y := clampWorld (botDecide env delta w bot).y } then
              clampWorld (botDecide env delta w bot).y -
                (env.random ((botDecide env delta w bot).draws + 1) * 2 - 1)
            else clampWorld (botDecide env delta w bot).y } := by
  have hlt : i < w.players.length := getElem?_lt_of_eq_some _ _ _ hp
  simp only [updateBotBehavior, clampWorld]
  rw [List.getElem?_set_self hlt]

theorem updateBotBehavior_botData (env : Env) (delta : ℚ) (w : World) (i : ℕ) (bot : Player) :
    ∃ bd, (updateBotBehavior env delta w i bot).botLearningData bot.id = some bd ∧
      bd.evasion = (botDecide env delta w bot).botData.evasion ∧
      bd.aggression = (botDecide env delta w bot).botData.aggression := by
  simp only [updateBotBehavior, if_true]
  split_ifs <;> exact ⟨_, rfl, rfl, rfl⟩

theorem botEngage_evade (env : Env) (draws : ℕ) (bot t : Player) (bd : BotData)
    (hd : calculateDistance env.math bot.x bot.y t.x t.y < BOT_EVASION_RADIUS)
    (hc : 0 < bd.attackCooldown) :
    botEngage env draws bot t bd =
      { x := bot.x + env.math.cos (env.math.atan2 (bot.y - t.y) (bot.x - t.x)) * SPEED * (3 / 2)
        y := bot.y + env.math.sin (env.math.atan2 (bot.y - t.y) (bot.x - t.x)) * SPEED * (3 / 2)
        botData := { bd with evasion := bd.evasion + 1 / 20, lastAction := some "evading" }
        fired := none, draws := draws } := by
  have hnc : ¬ bd.attackCooldown ≤ 0 := not_le.mpr hc
  simp [botEngage, hnc, hd]

theorem botEngage_attack (env : Env) (draws : ℕ) (bot t : Player) (bd : BotData)
    (hd : calculateDistance env.math bot.x bot.y t.x t.y < BOT_EVASION_RADIUS)
    (hc : bd.attackCooldown ≤ 0) :
    (botEngage env draws bot t bd).x = bot.x ∧ (botEngage env draws bot t bd).y = bot.y ∧
      (botEngage env draws bot t bd).botData.evasion = bd.evasion ∧
      (botEngage env draws bot t bd).botData.aggression = bd.aggression + 1 / 10 := by
  have hatt : calculateDistance env.math bot.x bot.y t.x t.y < BOT_ATTACK_RADIUS := by
    have : BOT_EVASION_RADIUS < BOT_ATTACK_RADIUS := by
      norm_num [BOT_EVASION_RADIUS, BOT_ATTACK_RADIUS]
    exact lt_trans hd this
  simp only [botEngage, hatt, hc, and_self, if_true]
  split_ifs <;> exact ⟨rfl, rfl, rfl, rfl⟩

/-- C12 (counterexample): a bot at `(5, 40)`, overlapping no solid tile, moves
to `(-5, 30)`, is clamped to `(0, 30)` on the solid tile of row 0, column 0,
and is then only nudged to `(1/2, 61/2)`, where it still overlaps that tile. -/
theorem updateBotBehavior_leaves_overlap :
    (∀ n, 0 ≤ gridEnv.random n ∧ gridEnv.random n < 1) ∧
    isCollidingWithMap gridEnv.decal2D { id := "bot_0", x := 5, y := 40, isBot := true }
      = false ∧
    (updateBotBehavior gridEnv 31 cornerWorld 0
        { id := "bot_0", x := 5, y := 40, isBot := true }).players =
      [{ id := "bot_0", x := 1 / 2, y := 61 / 2, isBot := true }] ∧
    isCollidingWithMap gridEnv.decal2D { id := "bot_0", x := 1 / 2, y := 61 / 2, isBot := true }
      = true := by
  refine ⟨?_, ?_, ?_, ?_⟩
  · intro n
    simp only [gridEnv]
    split_ifs <;> norm_num
  · simp [isCollidingWithMap, isColliding, gridEnv, Decal.tile, Decal.cols, List.range,
      List.range.loop, PLAYER_SIZE, TILE_SIZE]
    norm_num
  · simp [updateBotBehavior, botDecide, botWander, findNearestTarget, findNearestBot,
      cornerWorld, gridEnv, defaultBotData, isCollidingWithMap, isColliding, Decal.tile,
      Decal.cols, List.range, List.range.loop, MAP_SIZE, PLAYER_SIZE, SPEED, TILE_SIZE]
    norm_num
  · simp [isCollidingWithMap, isColliding, gridEnv, Decal.tile, Decal.cols, List.range,
      List.range.loop, PLAYER_SIZE, TILE_SIZE]
    norm_num

/-- C12 (amended): after `updateBotBehavior` a bot whose moved and clamped
position overlaps no solid decal tile is exactly at that position; one whose
moved and clamped position overlaps a solid tile is not put back: it ends
within 1 of that position on each axis, for every outcome of the random
draws. -/
theorem updateBotBehavior_settles (env : Env) (delta : ℚ) (w : World) (i : ℕ) (bot : Player)
    (hr : ∀ n, 0 ≤ env.random n ∧ env.random n < 1) (hp : w.players[i]? = some bot) :
    (isCollidingWithMap env.decal2D
        { bot with x := clampWorld (botDecide env delta w bot).x
                   y := clampWorld (botDecide env delta w bot).y } = false →
      (updateBotBehavior env delta w i bot).players[i]? =
        some { bot with x := clampWorld (botDecide env delta w bot).x
                        y := clampWorld (botDecide env delta w bot).y }) ∧
    (isCollidingWithMap env.decal2D
        { bot with x := clampWorld (botDecide env delta w bot).x
                   y := clampWorld (botDecide env delta w bot).y } = true →
      ∃ p, (updateBotBehavior env delta w i bot).players[i]? = some p ∧
        p.id = bot.id ∧ p.isBot = bot.isBot ∧
        |p.x - clampWorld (botDecide env delta w bot).x| ≤ 1 ∧
        |p.y - clampWorld (botDecide env delta w bot).y| ≤ 1) := by
  have hplayer := updateBotBehavior_player env delta w i bot hp
  constructor
  · intro hfree
    rw [hplayer]
    simp [hfree]
  · intro hstuck
    refine ⟨_, hplayer, rfl, rfl, ?_, ?_⟩
    · simp only [hstuck, if_true]
      obtain ⟨h0, h1⟩ := hr (botDecide env delta w bot).draws
      rw [abs_le]
      constructor <;> linarith
    · simp only [hstuck, if_true]
      obtain ⟨h0, h1⟩ := hr ((botDecide env delta w bot).draws + 1)
      rw [abs_le]
      constructor <;> linarith

/-- Witness of C12 (amended): the bot of `cornerWorld` under `gridEnv`. -/
theorem updateBotBehavior_settles_witness :
    ((∀ n, 0 ≤ gridEnv.random n ∧ gridEnv.random n < 1) ∧
      cornerWorld.players[0]? = some { id := "bot_0", x := 5, y := 40, isBot := true }) ∧
    ((isCollidingWithMap gridEnv.decal2D
        { ({ id := "bot_0", x := 5, y := 40, isBot := true } : Player) with
          x := clampWorld (botDecide gridEnv 31 cornerWorld
            { id := "bot_0", x := 5, y := 40, isBot := true }).x
          y := clampWorld (botDecide gridEnv 31 cornerWorld
            { id := "bot_0", x := 5, y := 40, isBot := true }).y } = true →
      ∃ p, (updateBotBehavior gridEnv 31 cornerWorld 0
          { id := "bot_0", x := 5, y := 40, isBot := true }).players[0]? = some p ∧
        p.id = "bot_0" ∧ p.isBot = true ∧
        |p.x - clampWorld (botDecide gridEnv 31 cornerWorld
          { id := "bot_0", x := 5, y := 40, isBot := true }).x| ≤ 1 ∧
        |p.y - clampWorld (botDecide gridEnv 31 cornerWorld
          { id := "bot_0", x := 5, y := 40, isBot := true }).y| ≤ 1)) := by
  have hr : ∀ n, 0 ≤ gridEnv.random n ∧ gridEnv.random n < 1 := by
    intro n
    simp only [gridEnv]
    split_ifs <;> norm_num
  have hp : cornerWorld.players[0]? = some { id := "bot_0", x := 5, y := 40, isBot := true } := by
    simp [cornerWorld]
  exact ⟨⟨hr, hp⟩, (updateBotBehavior_settles gridEnv 31 cornerWorld 0 _ hr hp).2⟩


/-- C13 (code defect): with the humans `farHuman` (distance 400) and
`nearHuman` (distance 100) both within the vision radius of `scout`, and
`farHuman` first in the registry, the target chosen is `farHuman`, although
`nearHuman` is strictly closer; the bot then steps east, towards `farHuman`. -/
theorem chooseTarget_first_not_nearest :
    chooseTarget gridEnv.math crowdWorld.players scout = some farHuman ∧
    calculateDistance gridEnv.math scout.x scout.y farHuman.x farHuman.y = 400 ∧
    calculateDistance gridEnv.math scout.x scout.y nearHuman.x nearHuman.y = 100 ∧
    nearHuman ∈ crowdWorld.players ∧ nearHuman.isBot = false ∧ nearHuman.id ≠ scout.id ∧
    calculateDistance gridEnv.math scout.x scout.y nearHuman.x nearHuman.y < BOT_VISION_RADIUS ∧
    calculateDistance gridEnv.math scout.x scout.y nearHuman.x nearHuman.y <
      calculateDistance gridEnv.math scout.x scout.y farHuman.x farHuman.y ∧
    (botDecide gridEnv 31 crowdWorld scout).x = 1010 ∧
    (botDecide gridEnv 31 crowdWorld scout).y = 1000 := by
  have hfar : calculateDistance gridEnv.math scout.x scout.y farHuman.x farHuman.y = 400 := by
    norm_num [calculateDistance, gridEnv, gridMath, scout, farHuman]
  have hnear : calculateDistance gridEnv.math scout.x scout.y nearHuman.x nearHuman.y = 100 := by
    norm_num [calculateDistance, gridEnv, gridMath, scout, nearHuman]
  have hfarq : calculateDistance gridMath 1000 1000 1400 1000 = 400 := by
    norm_num [calculateDistance, gridMath]
  have htarget : chooseTarget gridEnv.math crowdWorld.players scout = some farHuman := by
    simp [chooseTarget, findNearestTarget, List.find?_cons, crowdWorld, scout, farHuman,
      nearHuman, gridEnv, hfarq, BOT_VISION_RADIUS]
    norm_num
    try rfl
  refine ⟨htarget, hfar, hnear, by simp [crowdWorld], rfl, by simp [nearHuman, scout], ?_, ?_,
    ?_, ?_⟩
  · rw [hnear]; norm_num [BOT_VISION_RADIUS]
  · rw [hnear, hfar]; norm_num
  · rw [botDecide_eq, htarget]
    simp [botEngage, hfar, BOT_ATTACK_RADIUS, BOT_EVASION_RADIUS, SPEED]
    norm_num [scout, gridEnv, gridMath]
  · rw [botDecide_eq, htarget]
    simp [botEngage, hfar, BOT_ATTACK_RADIUS, BOT_EVASION_RADIUS, SPEED]
    norm_num [scout, gridEnv, gridMath]

/-- C14 (counterexample): `scout` has the target `nearHuman` at distance 100
and no stored behaviour state, so `attackCooldown` is `0`: `updateBotBehavior`
takes the attack branch, leaves the bot at `(1000, 1000)` and stores an evasion
accumulator of `0`, not `0.05`. -/
theorem updateBotBehavior_attack_not_evade :
    chooseTarget gridEnv.math closeWorld.players scout = some nearHuman ∧
    calculateDistance gridEnv.math scout.x scout.y nearHuman.x nearHuman.y < BOT_EVASION_RADIUS ∧
    (botDataOf closeWorld scout).attackCooldown ≤ 0 ∧
    (botDataOf closeWorld scout).evasion = 0 ∧
    (botDecide gridEnv 31 closeWorld scout).x = scout.x ∧
    (botDecide gridEnv 31 closeWorld scout).y = scout.y ∧
    (updateBotBehavior gridEnv 31 closeWorld 0 scout).players[0]? = some scout ∧
    ∃ bd, (updateBotBehavior gridEnv 31 closeWorld 0 scout).botLearningData scout.id = some bd ∧
      bd.evasion = 0 ∧ bd.aggression = 1 / 10 := by
  have hnear : calculateDistance gridEnv.math scout.x scout.y nearHuman.x nearHuman.y = 100 := by
    norm_num [calculateDistance, gridEnv, gridMath, scout, nearHuman]
  have hnearq : calculateDistance gridMath 1000 1000 900 1000 = 100 := by
    norm_num [calculateDistance, gridMath]
  have hd : calculateDistance gridEnv.math scout.x scout.y nearHuman.x nearHuman.y
      < BOT_EVASION_RADIUS := by
    rw [hnear]; norm_num [BOT_EVASION_RADIUS]
  have htarget : chooseTarget gridEnv.math closeWorld.players scout = some nearHuman := by
    simp [chooseTarget, findNearestTarget, List.find?_cons, closeWorld, scout, nearHuman,
      gridEnv, hnearq, BOT_VISION_RADIUS]
    norm_num
    try rfl
  have hdata : botDataOf closeWorld scout = defaultBotData := by
    simp [botDataOf, closeWorld]
  have hc : (botDataOf closeWorld scout).attackCooldown ≤ 0 := by
    rw [hdata]; simp [defaultBotData]
  have hdec : botDecide gridEnv 31 closeWorld scout =
      botEngage gridEnv closeWorld.draws scout nearHuman (botDataOf closeWorld scout) := by
    rw [botDecide_eq, htarget]
  obtain ⟨hx, hy, hev, hag⟩ := botEngage_attack gridEnv closeWorld.draws scout nearHuman
    (botDataOf closeWorld scout) hd hc
  obtain ⟨bd, hbd, hbe, hba⟩ := updateBotBehavior_botData gridEnv 31 closeWorld 0 scout
  refine ⟨htarget, hd, hc, by rw [hdata]; rfl, by rw [hdec, hx], by rw [hdec, hy], ?_,
    bd, hbd, ?_, ?_⟩
  · rw [updateBotBehavior_player gridEnv 31 closeWorld 0 scout (by simp [closeWorld]), hdec,
      hx, hy]
    simp [clampWorld, isCollidingWithMap, isColliding, gridEnv, scout, Decal.tile, Decal.cols,
      List.range, List.range.loop, MAP_SIZE, PLAYER_SIZE, TILE_SIZE]
    norm_num
  · rw [hbe, hdec, hev, hdata]; rfl
  · rw [hba, hdec, hag, hdata]; norm_num [defaultBotData]

/-- C14 (amended): for a bot whose target is at distance less than
`BOT_EVASION_RADIUS`: when its `attackCooldown` is positive, `updateBotBehavior`
moves it by `1.5 * SPEED * (cos a, sin a)` before clamping, `a` being the angle
from the target to the bot, and stores the evasion accumulator increased by
`0.05`; when its `attackCooldown` is `<= 0` the attack branch runs instead, the
bot is not moved before clamping, the evasion accumulator is unchanged and the
aggression accumulator grows by `0.1`. -/
theorem updateBotBehavior_evades_on_cooldown (env : Env) (delta : ℚ) (w : World) (i : ℕ)
    (bot t : Player) (ht : chooseTarget env.math w.players bot = some t)
    (hd : calculateDistance env.math bot.x bot.y t.x t.y < BOT_EVASION_RADIUS) :
    (0 < (botDataOf w bot).attackCooldown →
      (botDecide env delta w bot).x =
        bot.x + env.math.cos (env.math.atan2 (bot.y - t.y) (bot.x - t.x)) * SPEED * (3 / 2) ∧
      (botDecide env delta w bot).y =
        bot.y + env.math.sin (env.math.atan2 (bot.y - t.y) (bot.x - t.x)) * SPEED * (3 / 2) ∧
      ∃ bd, (updateBotBehavior env delta w i bot).botLearningData bot.id = some bd ∧
        bd.evasion = (botDataOf w bot).evasion + 1 / 20) ∧
    ((botDataOf w bot).attackCooldown ≤ 0 →
      (botDecide env delta w bot).x = bot.x ∧
      (botDecide env delta w bot).y = bot.y ∧
      ∃ bd, (updateBotBehavior env delta w i bot).botLearningData bot.id = some bd ∧
        bd.evasion = (botDataOf w bot).evasion ∧
        bd.aggression = (botDataOf w bot).aggression + 1 / 10) := by
  have hdec : botDecide env delta w bot =
      botEngage env w.draws bot t (botDataOf w bot) := by
    rw [botDecide_eq, ht]
  obtain ⟨bd, hbd, hbe, hba⟩ := updateBotBehavior_botData env delta w i bot
  constructor
  · intro hc
    have hev := botEngage_evade env w.draws bot t (botDataOf w bot) hd hc
    refine ⟨by rw [hdec, hev], by rw [hdec, hev], bd, hbd, ?_⟩
    rw [hbe, hdec, hev]
  · intro hc
    obtain ⟨hx, hy, hev, hag⟩ := botEngage_attack env w.draws bot t (botDataOf w bot) hd hc
    exact ⟨by rw [hdec, hx], by rw [hdec, hy], bd, hbd, by rw [hbe, hdec, hev],
      by rw [hba, hdec, hag]⟩

/-- Witness of C14 (amended): in `fleeWorld` the attack cooldown of `scout` is
running, and the stored evasion accumulator becomes `0.05`. -/
theorem updateBotBehavior_evades_on_cooldown_witness :
    (chooseTarget gridEnv.math fleeWorld.players scout = some nearHuman ∧
      calculateDistance gridEnv.math scout.x scout.y nearHuman.x nearHuman.y
        < BOT_EVASION_RADIUS ∧
      0 < (botDataOf fleeWorld scout).attackCooldown) ∧
    ∃ bd, (updateBotBehavior gridEnv 31 fleeWorld 0 scout).botLearningData scout.id = some bd ∧
      bd.evasion = 1 / 20 := by
  have hnear : calculateDistance gridEnv.math scout.x scout.y nearHuman.x nearHuman.y = 100 := by
    norm_num [calculateDistance, gridEnv, gridMath, scout, nearHuman]
  have hnearq : calculateDistance gridMath 1000 1000 900 1000 = 100 := by
    norm_num [calculateDistance, gridMath]
  have hd : calculateDistance gridEnv.math scout.x scout.y nearHuman.x nearHuman.y
      < BOT_EVASION_RADIUS := by
    rw [hnear]; norm_num [BOT_EVASION_RADIUS]
  have htarget : chooseTarget gridEnv.math fleeWorld.players scout = some nearHuman := by
    simp [chooseTarget, findNearestTarget, List.find?_cons, fleeWorld, closeWorld, scout,
      nearHuman, gridEnv, hnearq, BOT_VISION_RADIUS]
    norm_num
    try rfl
  have hdata : botDataOf fleeWorld scout = { defaultBotData with attackCooldown := 50 } := by
    simp [botDataOf, fleeWorld, scout]
  have hc : 0 < (botDataOf fleeWorld scout).attackCooldown := by
    rw [hdata]; norm_num
  obtain ⟨bd, hbd, hev⟩ :=
    ((updateBotBehavior_evades_on_cooldown gridEnv 31 fleeWorld 0 scout nearHuman htarget
      hd).1 hc).2.2
  refine ⟨⟨htarget, hd, hc⟩, bd, hbd, ?_⟩
  rw [hev, hdata]
  norm_num [defaultBotData]

end Snowman
